import Mathlib

set_option maxHeartbeats 1000000

/-!
Verification development for the ASN.1 specification front-end
(`asn1tools/parser.py`).  The Python module is shallowly embedded:

* Python values flowing through the transformer (dicts, lists, tuples,
  ints, strings, `None`) are modelled by the inductive type `PyVal`.
* The pure conversion functions (`convert_enum_values`, `convert_bstring`,
  `convert_hstring`, `convert_value_range`, `convert_assignment_list`,
  `ignore_comments`, ...) are translated directly.
* `parse_string` runs two grammar engines in sequence: the tokenizer-based
  `Asn1Parser` (a `textparser` grammar, whose transformer output is
  discarded) and the combinator (`pyparsing`) grammar whose converted
  output is returned.  Both engines are modelled as executable
  recursive-descent parsers restricted to the productions exercised here;
  any grammar branch outside the modelled fragment answers with the
  distinguished outcome `unmodelled`, so a theorem computing a concrete
  `ok`/`error` result certifies that only modelled branches were taken.
-/

/-- Model of the Python values produced by the parser's transformer layer:
`None`, ints, strings, booleans, tuples, lists, dicts (as ordered
association lists, mirroring CPython insertion order), and the `Tokens`
tag-wrapper class of `parser.py`. -/
inductive PyVal where
  | pyNone : PyVal
  | int : Int → PyVal
  | str : String → PyVal
  | bool : Bool → PyVal
  | tup : List PyVal → PyVal
  | list : List PyVal → PyVal
  | dict : List (String × PyVal) → PyVal
  | toks : String → List PyVal → PyVal

/-- Python `d[k] = v` on an insertion-ordered dict: an existing key keeps
its position, a new key is appended. -/
def dset : List (String × PyVal) → String → PyVal → List (String × PyVal)
  | [], k, v => [(k, v)]
  | (k', v') :: rest, k, v =>
      if k' = k then (k, v) :: rest else (k', v') :: dset rest k v

/-- Python `d.get(k)` / `d[k]` lookup. -/
def dget : List (String × PyVal) → String → Option PyVal
  | [], _ => none
  | (k', v') :: rest, k => if k' = k then some v' else dget rest k

/-- Python `k in d`. -/
def dmem (d : List (String × PyVal)) (k : String) : Bool :=
  (dget d k).isSome

/-! ## `ignore_comments` (parser.py lines 2697-2707)

`ignore_comments` substitutes, for every match of the regular expression
`--([\s\S]*?(--|\n))`, the same-length text in which every character other
than a newline is replaced by a space.  The lazy interior `[\s\S]*?`
together with the ordered terminator `(--|\n)` means a comment runs from
`--` to the nearest following `--` or newline; an opening `--` with no
terminator anywhere in the rest of the input matches nothing and is left
untouched (and then the rest of the input can contain no further match). -/

/-- Locate the terminator of a comment body: the nearest `--` or newline.
Returns the interior characters, the terminator, and the remainder. -/
def findCommentEnd : List Char → Option (List Char × List Char × List Char)
  | [] => none
  | c :: rest =>
      if c = '\n' then some ([], ['\n'], rest)
      else if c = '-' ∧ rest.head? = some '-' then some ([], ['-', '-'], rest.tail)
      else (findCommentEnd rest).map (fun p => (c :: p.1, p.2.1, p.2.2))

theorem findCommentEnd_spec :
    ∀ (l i t r : List Char), findCommentEnd l = some (i, t, r) →
      l = i ++ t ++ r ∧ (∀ c ∈ i, c ≠ '\n') ∧ (t = ['\n'] ∨ t = ['-', '-']) := by
  intro l
  induction l with
  | nil => intro i t r h; simp [findCommentEnd] at h
  | cons c rest ih =>
    intro i t r h
    rw [findCommentEnd] at h
    by_cases h1 : c = '\n'
    · rw [if_pos h1] at h
      injection h with h
      injection h with hi h
      injection h with ht hr
      subst hi; subst ht; subst hr; subst h1
      exact ⟨rfl, by simp, Or.inl rfl⟩
    · rw [if_neg h1] at h
      by_cases h2 : c = '-' ∧ rest.head? = some '-'
      · rw [if_pos h2] at h
        injection h with h
        injection h with hi h
        injection h with ht hr
        subst hi; subst ht; subst hr
        obtain ⟨hc, hh⟩ := h2
        subst hc
        cases rest with
        | nil => simp at hh
        | cons d rest' =>
          simp at hh
          subst hh
          exact ⟨rfl, by simp, Or.inr rfl⟩
      · rw [if_neg h2] at h
        cases hfind : findCommentEnd rest with
        | none => rw [hfind] at h; simp at h
        | some p =>
          obtain ⟨i', t', r'⟩ := p
          rw [hfind] at h
          simp only [Option.map_some'] at h
          injection h with h
          injection h with hi h
          injection h with ht hr
          subst hi; subst ht; subst hr
          obtain ⟨heq, hni, hterm⟩ := ih i' t' r' hfind
          refine ⟨by rw [heq]; simp, ?_, hterm⟩
          intro x hx
          simp at hx
          rcases hx with hx | hx
          · subst hx; exact h1
          · exact hni x hx

theorem findCommentEnd_length :
    ∀ (l i t r : List Char), findCommentEnd l = some (i, t, r) →
      r.length < l.length := by
  intro l i t r h
  obtain ⟨heq, -, hterm⟩ := findCommentEnd_spec l i t r h
  subst heq
  rcases hterm with ht | ht <;> subst ht <;> simp <;> omega

/-- Fueled worker for `ignore_comments`.  Every step consumes at least
one input character, so fuel equal to the input length is always
enough; the recursion is structural on the fuel, keeping the function
reducible by the kernel. -/
def igGo : Nat → List Char → List Char
  | 0, l => l
  | Nat.succ _, [] => []
  | Nat.succ fuel, c :: rest =>
      if c = '-' ∧ rest.head? = some '-' then
        match findCommentEnd rest.tail with
        | some (i, t, r) =>
            ' ' :: ' ' :: ((i.map fun _ => ' ') ++
              (if t = ['\n'] then ['\n'] else [' ', ' ']) ++ igGo fuel r)
        | none => c :: rest
      else c :: igGo fuel rest

/-- `ignore_comments` (parser.py line 2697): replace every terminated
comment by spaces of the same length, keeping newlines. -/
def ignoreComments (l : List Char) : List Char := igGo l.length l

theorem igGo_congr :
    ∀ (n fuel fuel' : Nat) (l : List Char), l.length = n →
      n ≤ fuel → n ≤ fuel' → igGo fuel l = igGo fuel' l := by
  intro n
  induction n using Nat.strong_induction_on with
  | _ n ih =>
  intro fuel fuel' l hn hf hf'
  cases l with
  | nil => cases fuel <;> cases fuel' <;> rfl
  | cons c rest =>
    simp only [List.length_cons] at hn
    cases fuel with
    | zero => omega
    | succ fuel =>
      cases fuel' with
      | zero => omega
      | succ fuel' =>
        simp only [igGo]
        by_cases hop : c = '-' ∧ rest.head? = some '-'
        · rw [if_pos hop, if_pos hop]
          cases hfind : findCommentEnd rest.tail with
          | none => rfl
          | some p =>
            obtain ⟨i, t, r⟩ := p
            have hr := findCommentEnd_length rest.tail i t r hfind
            have hta : rest.tail.length ≤ rest.length := by cases rest <;> simp
            dsimp only
            rw [ih r.length (by omega) fuel fuel' r rfl (by omega) (by omega)]
        · rw [if_neg hop, if_neg hop]
          rw [ih rest.length (by omega) fuel fuel' rest rfl (by omega) (by omega)]

/-- One-step unfolding of `ignoreComments` on a non-empty input,
mirroring the recursion of the Python `ignore_comments`. -/
theorem ignoreComments_cons (c : Char) (rest : List Char) :
    ignoreComments (c :: rest) =
      if c = '-' ∧ rest.head? = some '-' then
        match findCommentEnd rest.tail with
        | some (i, t, r) =>
            ' ' :: ' ' :: ((i.map fun _ => ' ') ++
              (if t = ['\n'] then ['\n'] else [' ', ' ']) ++ ignoreComments r)
        | none => c :: rest
      else c :: ignoreComments rest := by
  show igGo (Nat.succ rest.length) (c :: rest) = _
  simp only [igGo]
  by_cases hop : c = '-' ∧ rest.head? = some '-'
  · rw [if_pos hop, if_pos hop]
    cases hfind : findCommentEnd rest.tail with
    | none => rfl
    | some p =>
      obtain ⟨i, t, r⟩ := p
      have hr := findCommentEnd_length rest.tail i t r hfind
      have hta : rest.tail.length ≤ rest.length := by cases rest <;> simp
      dsimp only
      rw [igGo_congr r.length rest.length r.length r rfl (by omega) (le_refl _)]
      rfl
  · rw [if_neg hop, if_neg hop]
    rfl

/-- Pointwise relation between an input character and the corresponding
output character of `ignoreComments`: either unchanged, or a space
replacing a non-newline character. -/
def commentCharOk (a b : Char) : Prop :=
  b = a ∨ (b = ' ' ∧ a ≠ '\n')

theorem forall2_commentCharOk_spaces (i : List Char) (h : ∀ c ∈ i, c ≠ '\n') :
    List.Forall₂ commentCharOk i (i.map fun _ => ' ') := by
  induction i with
  | nil => simp
  | cons c rest ih =>
    simp only [List.map_cons]
    refine List.Forall₂.cons (Or.inr ⟨rfl, h c (by simp)⟩) ?_
    exact ih fun x hx => h x (by simp [hx])

theorem ignoreComments_forall2 :
    ∀ s : List Char, List.Forall₂ commentCharOk s (ignoreComments s) := by
  intro s
  generalize hn : s.length = n
  induction n using Nat.strong_induction_on generalizing s with
  | _ n ih =>
  cases s with
  | nil => exact List.Forall₂.nil
  | cons c rest =>
    rw [ignoreComments_cons]
    by_cases hop : c = '-' ∧ rest.head? = some '-'
    · rw [if_pos hop]
      obtain ⟨hc, hh⟩ := hop
      subst hc
      cases rest with
      | nil => simp at hh
      | cons d rest' =>
        simp at hh
        subst hh
        simp only [List.tail_cons]
        split
        · rename_i i t r hfind
          obtain ⟨heq, hni, hterm⟩ := findCommentEnd_spec rest' i t r hfind
          subst heq
          refine List.Forall₂.cons (Or.inr ⟨rfl, by decide⟩) ?_
          refine List.Forall₂.cons (Or.inr ⟨rfl, by decide⟩) ?_
          refine List.rel_append ?_ ?_
          · refine List.rel_append (forall2_commentCharOk_spaces i hni) ?_
            rcases hterm with ht | ht <;> subst ht
            · simp only [if_pos rfl]
              exact List.Forall₂.cons (Or.inl rfl) (List.Forall₂.nil)
            · simp only [if_neg (by decide : ¬(['-', '-'] = ['\n']))]
              refine List.Forall₂.cons (Or.inr ⟨rfl, by decide⟩) ?_
              exact List.Forall₂.cons (Or.inr ⟨rfl, by decide⟩) (List.Forall₂.nil)
          · refine ih r.length ?_ r rfl
            rw [← hn]
            simp
            omega
        · exact List.forall₂_same.2 fun x _ => Or.inl rfl
    · rw [if_neg hop]
      refine List.Forall₂.cons (Or.inl rfl) ?_
      refine ih rest.length ?_ rest rfl
      rw [← hn]
      simp

theorem ignoreComments_length (s : List Char) :
    (ignoreComments s).length = s.length :=
  ((ignoreComments_forall2 s).length_eq).symm

theorem ignoreComments_getD (s : List Char) (n : Nat) :
    (ignoreComments s).getD n ' ' = s.getD n ' ' ∨
      ((ignoreComments s).getD n ' ' = ' ' ∧ s.getD n '\n' ≠ '\n' ∨ s.length ≤ n) := by
  rcases Nat.lt_or_ge n s.length with hlt | hge
  · have hlen := ignoreComments_length s
    obtain ⟨-, hpt⟩ := List.forall₂_iff_get.1 (ignoreComments_forall2 s)
    have hp := hpt n hlt (by omega)
    rw [List.get_eq_getElem, List.get_eq_getElem] at hp
    rcases hp with hsame | ⟨hsp, hnn⟩
    · left
      rw [List.getD_eq_getElem _ _ hlt, List.getD_eq_getElem _ _ (by omega), hsame]
    · right; left
      refine ⟨?_, ?_⟩
      · rw [List.getD_eq_getElem _ _ (by omega), hsp]
      · rw [List.getD_eq_getElem _ _ hlt]; exact hnn
  · right; right; exact hge

theorem ignoreComments_newline_iff (s : List Char) (n : Nat) (h : n < s.length) :
    ((ignoreComments s).getD n 'a' = '\n' ↔ s.getD n 'a' = '\n') := by
  have hlen := ignoreComments_length s
  obtain ⟨-, hpt⟩ := List.forall₂_iff_get.1 (ignoreComments_forall2 s)
  have hp := hpt n h (by omega)
  rw [List.get_eq_getElem, List.get_eq_getElem] at hp
  rw [List.getD_eq_getElem _ _ h,
    List.getD_eq_getElem _ _ (by omega : n < (ignoreComments s).length)]
  rcases hp with hsame | ⟨hsp, hnn⟩
  · rw [hsame]
  · rw [hsp]
    constructor
    · intro hc; exact absurd hc (by decide)
    · intro hc; exact absurd hc hnn

/-- A list of characters containing no `--` (so no comment can start). -/
def noDashDash : List Char → Bool
  | [] => true
  | c :: rest =>
      if c = '-' ∧ rest.head? = some '-' then false else noDashDash rest

theorem ignoreComments_no_comment (s : List Char) (h : noDashDash s = true) :
    ignoreComments s = s := by
  induction s with
  | nil => rfl
  | cons c rest ih =>
    rw [noDashDash] at h
    rw [ignoreComments_cons]
    by_cases hop : c = '-' ∧ rest.head? = some '-'
    · simp [hop] at h
    · simp only [hop, if_neg, not_false_iff]
      rw [ih (by simpa [hop] using h)]

/-! ## Character helpers -/

/-- The apostrophe character (ASCII 39), delimiting ASN.1 bstring and
hstring lexemes. -/
def squote : Char := Char.ofNat 39

/-- Python `\s`: space, tab, newline, carriage return, form feed,
vertical tab. -/
def isPyWs (c : Char) : Bool :=
  c = ' ' ∨ c = '\t' ∨ c = '\n' ∨ c = '\r' ∨ c = '\x0c' ∨ c = '\x0b'

/-- ASCII uppercase letter. -/
def isUpperAlpha (c : Char) : Bool := 'A' ≤ c ∧ c ≤ 'Z'

/-- ASCII lowercase letter. -/
def isLowerAlpha (c : Char) : Bool := 'a' ≤ c ∧ c ≤ 'z'

/-- ASCII digit. -/
def isDigitChar (c : Char) : Bool := '0' ≤ c ∧ c ≤ '9'

/-- Python `str.lower` on an ASCII character. -/
def asciiLower (c : Char) : Char :=
  if isUpperAlpha c then Char.ofNat (c.toNat + 32) else c

/-- Uppercase hexadecimal digit, the character class `[0-9A-F]` of the
`hstring` lexeme (parser.py line 1882 / token spec line 158). -/
def isHexUpper (c : Char) : Bool := isDigitChar c ∨ ('A' ≤ c ∧ c ≤ 'F')

/-- Binary digit, the character class `[01]` of the `bstring` lexeme. -/
def isBinDigit (c : Char) : Bool := c = '0' ∨ c = '1'

/-! ## Bit-string literal conversion (parser.py lines 1554-1559) -/

/-- `convert_bstring`: `'0b' + re.sub(r"[\sB']", '', token)`. -/
def convertBstring (t : List Char) : List Char :=
  '0' :: 'b' :: t.filter fun c => ¬ (isPyWs c ∨ c = 'B' ∨ c = squote)

/-- `convert_hstring`: `'0x' + re.sub(r"[\sH']", '', token).lower()`. -/
def convertHstring (t : List Char) : List Char :=
  '0' :: 'x' :: (t.filter fun c => ¬ (isPyWs c ∨ c = 'H' ∨ c = squote)).map asciiLower

/-! ## `convert_value_range` (parser.py lines 1241-1253) -/

/-- The list-unwrapping performed on each endpoint of a value range:
`if isinstance(x, list): x = x[0]`.  (In the grammar the endpoint produced
through the `value` production is a non-empty `Group`.) -/
def pyUnwrapHead : PyVal → PyVal
  | .list (x :: _) => x
  | v => v

/-- `convert_value_range`: return the two endpoints, each unwrapped one
level, as a tuple — with no comparison or reordering of the endpoints. -/
def convertValueRange (tokens : List PyVal) : PyVal :=
  match tokens with
  | t0 :: t1 :: _ => .tup [pyUnwrapHead t0, pyUnwrapHead t1]
  | _ => .tup []

/-! ## Errors raised by the conversion layer -/

/-- Exceptions observable through `parse_string`:
`synErr` stands for a grammar mismatch (a `ParseError` reporting invalid
syntax, whose line/column payload is not modelled), `dupEnumNumber n`
for the `ParseError('Duplicated ENUMERATED number n at line l.')` raised
by `convert_enum_values`, `internalErr` for `InternalParserError` and
uncaught builtin exceptions, and `unmodelled` for a grammar branch
outside the modelled fragment (never the behaviour of the source). -/
inductive PErr where
  | synErr : PErr
  | dupEnumNumber : Int → PErr
  | internalErr : String → PErr
  | unmodelled : PErr

/-- Decimal value of a digit run. -/
def digitsToNat (l : List Char) : Nat :=
  l.foldl (fun acc c => acc * 10 + (c.toNat - 48)) 0

/-- Python `int(...)` on the number-shaped strings produced by the
grammar: an optional leading minus followed by a non-empty digit run;
`none` models the `ValueError` on anything else. -/
def pyStrToInt (s : String) : Option Int :=
  match s.data with
  | '-' :: rest =>
      if rest ≠ [] ∧ rest.all isDigitChar then some (-(digitsToNat rest : Int))
      else none
  | l =>
      if l ≠ [] ∧ l.all isDigitChar then some (digitsToNat l : Int)
      else none

/-- Python `int(x)` on the values that reach it here: identity on ints,
numeric-string parsing, `ValueError`/`TypeError` otherwise. -/
def pyInt : PyVal → Except PErr Int
  | .int n => .ok n
  | .str s =>
      match pyStrToInt s with
      | some n => .ok n
      | none => .error (.internalErr "int")
  | _ => .error (.internalErr "int")

/-- Python `l[i]` with `IndexError` out of range. -/
def pyIdx (l : List PyVal) (i : Nat) : Except PErr PyVal :=
  match l.get? i with
  | some v => .ok v
  | none => .error (.internalErr "IndexError")

/-! ## `convert_enum_values` (parser.py lines 1161-1220)

An enumeration item is either a bare identifier (a plain token, not a
Python list) or a named number, which the grammar delivers as the list
`[name, '(', number, ')']` — hence the source's `int(item[2])`. -/

/-- `add_used_numbers`: walk the items; for every list-shaped item check
`int(item[2])` against the used-number list, raising the
duplicated-number `ParseError`, else append it. -/
def addUsedNumbers : List PyVal → List Int → Except PErr (List Int)
  | [], used => .ok used
  | item :: rest, used =>
      match item with
      | .list l => do
          let n ← pyIdx l 2 >>= pyInt
          if n ∈ used then .error (.dupEnumNumber n)
          else addUsedNumbers rest (used ++ [n])
      | _ => addUsedNumbers rest used

/-- The source's `while number in used_numbers: number += 1`, with fuel
(`used.length + 1` suffices, see `firstFree_spec`). -/
def firstFree (fuel : Nat) (n : Int) (used : List Int) : Int :=
  match fuel with
  | 0 => n
  | fuel + 1 => if n ∈ used then firstFree fuel (n + 1) used else n

/-- The root-enumeration loop of `convert_enum_values`: named items keep
their recorded number; unnamed items run the `while` loop from the
running counter, append the result to the used list, and bump the
counter. -/
def enumRootLoop :
    List PyVal → Int → List Int → List PyVal →
      Except PErr (List PyVal × Int × List Int)
  | [], number, used, values => .ok (values, number, used)
  | token :: rest, number, used, values =>
      match token with
      | .list l => do
          let nm ← pyIdx l 0
          let nv ← pyIdx l 2 >>= pyInt
          enumRootLoop rest number used (values ++ [.tup [nm, .int nv]])
      | _ =>
          let m := firstFree (used.length + 1) number used
          enumRootLoop rest (m + 1) (used ++ [m]) (values ++ [.tup [token, .int m]])

/-- The additional-enumeration loop: a named item resets the counter to
its recorded number; an unnamed item takes the current counter and raises
the duplicated-number `ParseError` if that number is already used; in
both cases the counter is incremented afterwards. -/
def enumAdditionalLoop :
    List PyVal → Int → List Int → List PyVal →
      Except PErr (List PyVal × Int × List Int)
  | [], number, used, values => .ok (values, number, used)
  | token :: rest, number, used, values =>
      match token with
      | .list l => do
          let nm ← pyIdx l 0
          let nv ← pyIdx l 2 >>= pyInt
          enumAdditionalLoop rest (nv + 1) used (values ++ [.tup [nm, .int nv]])
      | _ =>
          if number ∈ used then .error (.dupEnumNumber number)
          else enumAdditionalLoop rest (number + 1) (used ++ [number])
                 (values ++ [.tup [token, .int number]])

/-- `convert_enum_values`: number the root enumeration, then, when an
extension is present (`ext = some additional`, the source's
`extension[1:]` after the empty marker group), append the
`EXTENSION_MARKER` (`None`) and number the additional enumeration. -/
def convertEnumValues (root : List PyVal) (ext : Option (List PyVal)) :
    Except PErr (List PyVal) := do
  let used ← addUsedNumbers root []
  let (values, number, used) ← enumRootLoop root 0 used []
  match ext with
  | none => .ok values
  | some additional => do
      let values := values ++ [.pyNone]
      let used ← addUsedNumbers additional used
      let (values, _, _) ← enumAdditionalLoop additional number used values
      .ok values

/-- Specification-side numbering of the root enumeration, following the
spec's words: each unnamed item is assigned the smallest non-negative
integer not yet used. -/
def enumSpecRootLoop :
    List PyVal → List Int → List PyVal →
      Except PErr (List PyVal × List Int)
  | [], used, values => .ok (values, used)
  | token :: rest, used, values =>
      match token with
      | .list l => do
          let nm ← pyIdx l 0
          let nv ← pyIdx l 2 >>= pyInt
          enumSpecRootLoop rest used (values ++ [.tup [nm, .int nv]])
      | _ =>
          let m := firstFree (used.length + 1) 0 used
          enumSpecRootLoop rest (used ++ [m]) (values ++ [.tup [token, .int m]])

/-! ## `convert_assignment_list` (parser.py lines 1718-1759) -/

/-- A `LOGGER.warning("<Category> '%s' already defined.", name)` event. -/
structure Warn where
  category : String
  name : String

/-- Accumulator of `convert_assignment_list`: the warning log and the
four result dictionaries. -/
structure AsgAcc where
  warns : List Warn
  types : List (String × PyVal)
  values : List (String × PyVal)
  objectClasses : List (String × PyVal)
  objectSets : List (String × PyVal)

/-- One iteration of the `for kind, name, value in tokens` loop: warn when
the name is already bound in the target dictionary, then (re)bind it; an
unrecognized kind raises `InternalParserError`. -/
def asgStep (acc : AsgAcc) (a : String × String × PyVal) : Except PErr AsgAcc :=
  let (kind, name, value) := a
  if kind = "parameterized-object-set-assignment" then
    .ok { acc with
      warns := acc.warns ++ (if dmem acc.objectSets name then [⟨"Object set", name⟩] else []),
      objectSets := dset acc.objectSets name value }
  else if kind = "parameterized-object-assignment" then
    .ok { acc with
      warns := acc.warns ++ (if dmem acc.values name then [⟨"Object", name⟩] else []),
      values := dset acc.values name value }
  else if kind = "parameterized-object-class-assignment" then
    .ok { acc with
      warns := acc.warns ++ (if dmem acc.objectClasses name then [⟨"Object class", name⟩] else []),
      objectClasses := dset acc.objectClasses name value }
  else if kind = "parameterized-type-assignment" then
    .ok { acc with
      warns := acc.warns ++ (if dmem acc.types name then [⟨"Type", name⟩] else []),
      types := dset acc.types name value }
  else if kind = "parameterized-value-assignment" then
    .ok { acc with
      warns := acc.warns ++ (if dmem acc.values name then [⟨"Value", name⟩] else []),
      values := dset acc.values name value }
  else .error (.internalErr kind)

/-- `convert_assignment_list` run from an accumulator. -/
def asgRun (l : List (String × String × PyVal)) (acc : AsgAcc) :
    Except PErr AsgAcc :=
  l.foldlM asgStep acc

/-- `convert_assignment_list`: process the assignment triples and return
the dictionary of the four maps (the source's literal at lines
1754-1759). -/
def convertAssignmentList (l : List (String × String × PyVal)) :
    Except PErr (List Warn × PyVal) := do
  let acc ← asgRun l ⟨[], [], [], [], []⟩
  .ok (acc.warns,
    .dict [("types", .dict acc.types),
           ("values", .dict acc.values),
           ("object-classes", .dict acc.objectClasses),
           ("object-sets", .dict acc.objectSets)])

/-! ## Reserved-word guard for type / module references
(parser.py lines 1889, 2559-2560, 2592-2593) -/

/-- The keyword set of the tokenizer grammar (parser.py lines 48-131);
identical to the Glossary's reserved-word list. -/
def asn1Keywords : List String :=
  ["ABSENT", "ENCODED", "INTEGER", "RELATIVE-OID", "ABSTRACT-SYNTAX",
   "END", "INTERSECTION", "SEQUENCE", "ALL", "ENUMERATED", "ISO646String",
   "SET", "APPLICATION", "EXCEPT", "MAX", "SIZE", "AUTOMATIC", "EXPLICIT",
   "MIN", "STRING", "BEGIN", "EXPORTS", "MINUS-INFINITY", "SYNTAX", "BIT",
   "EXTENSIBILITY", "NULL", "T61String", "BMPString", "EXTERNAL",
   "NumericString", "TAGS", "BOOLEAN", "FALSE", "OBJECT", "TeletexString",
   "BY", "FROM", "ObjectDescriptor", "TRUE", "CHARACTER", "GeneralizedTime",
   "OCTET", "TYPE-IDENTIFIER", "CHOICE", "GeneralString", "OF", "UNION",
   "CLASS", "GraphicString", "OPTIONAL", "UNIQUE", "COMPONENT", "IA5String",
   "PATTERN", "UNIVERSAL", "COMPONENTS", "IDENTIFIER", "PDV",
   "UniversalString", "CONSTRAINED", "IMPLICIT", "PLUS-INFINITY", "UTCTime",
   "CONTAINING", "IMPLIED", "PRESENT", "UTF8String", "DEFAULT", "IMPORTS",
   "PrintableString", "VideotexString", "DEFINITIONS", "INCLUDES",
   "PRIVATE", "VisibleString", "EMBEDDED", "INSTANCE", "REAL", "WITH",
   "ANY", "DEFINED"]

/-- Strip a literal off the front of the input, if present. -/
def stripPre : List Char → List Char → Option (List Char)
  | [], l => some l
  | _ :: _, [] => none
  | k :: ks, c :: cs => if c = k then stripPre ks cs else none

/-- One alternative of the guard regex: the literal `kw` followed by
`\s` or end of input. -/
def kwThenWsOrEnd (kw : List Char) (l : List Char) : Bool :=
  match stripPre kw l with
  | some [] => true
  | some (c :: _) => isPyWs c
  | none => false

/-- The guard regex `(END|SEQUENCE|ENUMERATED)(\s|$)` of the combinator
grammar (parser.py line 1889): it names only these three words. -/
def reservedWordsAt (l : List Char) : Bool :=
  kwThenWsOrEnd "END".data l ∨ kwThenWsOrEnd "SEQUENCE".data l ∨
    kwThenWsOrEnd "ENUMERATED".data l

/-- `typereference` / `modulereference` of the combinator grammar
(parser.py lines 2559-2560 and 2592-2593):
`NotAny(reserved_words) + Regex(r'[A-Z][a-zA-Z0-9-]*')`. -/
def typeReferenceMatch (l : List Char) : Option (List Char × List Char) :=
  if reservedWordsAt l then none
  else
    match l with
    | c :: rest =>
        if isUpperAlpha c then
          some (c :: rest.takeWhile (fun d => isUpperAlpha d ∨ isLowerAlpha d ∨ isDigitChar d ∨ d = '-'),
                rest.dropWhile (fun d => isUpperAlpha d ∨ isLowerAlpha d ∨ isDigitChar d ∨ d = '-'))
        else none
    | [] => none

/-! ## Phase 1: the tokenizer-based grammar (`Asn1Parser`, parser.py lines 45-900)

`parse_string` first runs `Asn1Parser().parse(string, token_tree=True)`
and feeds the parse tree to `Transformer().transform`, whose result is
discarded; only a failure of this phase is observable (it aborts the
parse).  The phase is therefore modelled as an acceptance test: the
`textparser` engine (an external library; modelled from the spec's
Grammar Engine contracts: ordered choice, greedy repetition,
backtracking delimited lists) is a fueled interpreter `tpRun` over a
deep embedding `G` of the grammar, and the grammar of `Asn1Parser` is
transcribed production by production into the environment `asn1Env`.
Productions that cannot be reached on the inputs considered in this
development are cut off with `G.unmod`, which propagates as the
three-valued outcome `TPRes.unmod`: a run that answers `ok`/`fail`
never consulted an unmodelled branch. -/

/-- Grammar expressions of the tokenizer-based engine. -/
inductive G where
  | tok : String → G
  | seq : List G → G
  | alt : List G → G
  | opt : G → G
  | star : G → G
  | many1 : G → G
  | dlist : G → G → G
  | nomatch : G
  | unmod : G
  | ref : String → G

/-- Outcome of a run of the tokenizer-based engine. -/
inductive TPRes where
  | ok : List String → TPRes
  | fail : TPRes
  | unmod : TPRes

/-- Run the elements of a `Sequence` in order with the given
interpreter for single grammar expressions. -/
def tpSeqGo (run : G → List String → TPRes) : List G → List String → TPRes
  | [], toks => .ok toks
  | g :: gs, toks =>
      match run g toks with
      | .ok r => tpSeqGo run gs r
      | x => x

/-- Try the alternatives of an ordered choice left to right with the
given interpreter for single grammar expressions. -/
def tpAltGo (run : G → List String → TPRes) : List G → List String → TPRes
  | [], _ => .fail
  | g :: gs, toks =>
      match run g toks with
      | .ok r => .ok r
      | .fail => tpAltGo run gs toks
      | .unmod => .unmod

/-- Fueled interpreter for `G` over the token stream (tokens are given by
their grammar names).  Ordered choice takes the first succeeding
alternative; repetition is greedy and stops on a non-consuming success;
a delimited list backtracks over a trailing delimiter.  The recursion is
structural on the fuel (`star` loops through the fuel itself), so runs
on concrete inputs reduce inside the kernel. -/
def tpRun (env : String → G) : Nat → G → List String → TPRes
  | 0, _, _ => .unmod
  | Nat.succ fuel, g, toks =>
      match g with
      | .tok s =>
          match toks with
          | t :: rest => if t = s then .ok rest else .fail
          | [] => .fail
      | .seq gs => tpSeqGo (tpRun env fuel) gs toks
      | .alt gs => tpAltGo (tpRun env fuel) gs toks
      | .opt g =>
          match tpRun env fuel g toks with
          | .ok r => .ok r
          | .fail => .ok toks
          | .unmod => .unmod
      | .star g =>
          match tpRun env fuel g toks with
          | .ok r =>
              if r.length = toks.length then .ok toks
              else tpRun env fuel (.star g) r
          | .fail => .ok toks
          | .unmod => .unmod
      | .many1 g =>
          match tpRun env fuel g toks with
          | .ok r => tpRun env fuel (.star g) r
          | x => x
      | .dlist item delim =>
          match tpRun env fuel item toks with
          | .ok r => tpRun env fuel (.star (.seq [delim, item])) r
          | x => x
      | .nomatch => .fail
      | .unmod => .unmod
      | .ref n => tpRun env fuel (env n) toks

/-- Characters allowed after the first character of `TREF`/`IDENT`
tokens: `[a-zA-Z0-9-]`. -/
def trefBodyChar (c : Char) : Bool :=
  isUpperAlpha c ∨ isLowerAlpha c ∨ isDigitChar c ∨ c = '-'

/-- Whitespace of the tokenizer's `SKIP` lexeme: `[ \r\n\t]`. -/
def isSkipWs (c : Char) : Bool :=
  c = ' ' ∨ c = '\r' ∨ c = '\n' ∨ c = '\t'

/-- The closing delimiter of a bstring or hstring lexeme: an apostrophe
followed by the given marker letter. -/
def closingMark (mark : Char) (l : List Char) : Bool :=
  match l with
  | q :: b :: _ => q = squote ∧ b = mark
  | _ => false

/-- One step of the tokenizer (`Asn1Parser.token_specs`, parser.py lines
133-169): the first lexeme in specification order that matches at the
current position wins.  Produces `none` at end of input, a token-free
step for `SKIP`, and otherwise the grammar name of the token (the second
component of a 3-tuple spec, the kind for 2-tuple specs) — with a
keyword-valued `TREF` re-kinded to the keyword itself, which is how the
engine masks reserved words from the identifier kinds. -/
def tpNextTok (l : List Char) : Option (Option String × List Char) :=
  match l with
  | [] => none
  | c :: rest =>
      if isSkipWs c then
        some (none, rest.dropWhile isSkipWs)
      else if c = '-' ∧ rest.head? = some '-' then
        match findCommentEnd rest.tail with
        | some (_, _, r) => some (none, r)
        | none => some (some "-", rest)
      else if c = '-' ∧ (rest.head?.map isDigitChar).getD false then
        some (some "NUMBER", rest.dropWhile isDigitChar)
      else if isDigitChar c then
        some (some "NUMBER", rest.dropWhile isDigitChar)
      else if c = '[' then
        if rest.head? = some '[' then some (some "[[", rest.tail)
        else some (some "[", rest)
      else if c = ']' then
        if rest.head? = some ']' then some (some "]]", rest.tail)
        else some (some "]", rest)
      else if c = '\x7b' then some (some "\x7b", rest)
      else if c = '\x7d' then some (some "\x7d", rest)
      else if c = '<' then some (some "<", rest)
      else if c = '>' then some (some ">", rest)
      else if c = ',' then some (some ",", rest)
      else if c = '.' then
        match rest with
        | '.' :: '.' :: r => some (some "...", r)
        | '.' :: r => some (some "..", r)
        | _ => some (some ".", rest)
      else if c = '(' then some (some "(", rest)
      else if c = ')' then some (some ")", rest)
      else if c = '-' then some (some "-", rest)
      else if c = ':' then
        match rest with
        | ':' :: '=' :: r => some (some "::=", r)
        | _ => some (some ":", rest)
      else if c = '=' then some (some "=", rest)
      else if c = '"' then
        match rest.dropWhile (fun d => ¬ d = '"') with
        | _ :: r => some (some "CSTRING", r)
        | [] => some (some "QMARK", rest)
      else if c = squote then
        let rb := rest.dropWhile (fun d => isBinDigit d ∨ isPyWs d)
        if closingMark 'B' rb then
          some (some "BSTRING", rb.drop 2)
        else
          let rh := rest.dropWhile (fun d => isHexUpper d ∨ isPyWs d)
          if closingMark 'H' rh then
            some (some "HSTRING", rh.drop 2)
          else some (some "APSTR", rest)
      else if c = ';' then some (some ";", rest)
      else if c = '@' then some (some "@", rest)
      else if c = '|' then some (some "|", rest)
      else if c = '!' then some (some "!", rest)
      else if c = '^' then some (some "^", rest)
      else if c = '&' then some (some "&", rest)
      else if isUpperAlpha c then
        let text := String.mk (c :: rest.takeWhile trefBodyChar)
        some (some (if asn1Keywords.contains text then text else "TREF"),
              rest.dropWhile trefBodyChar)
      else if isLowerAlpha c then
        some (some "IDENT", rest.dropWhile trefBodyChar)
      else some (some "MISMATCH", rest)

/-- Tokenize a whole input (fuel `length + 1` always suffices since every
step consumes at least one character; exhaustion, which cannot occur,
leaves a sentinel no production accepts). -/
def tpTokenize : Nat → List Char → List String
  | 0, _ => ["FUELOUT"]
  | Nat.succ fuel, l =>
      match tpNextTok l with
      | none => []
      | some (none, r) => tpTokenize fuel r
      | some (some t, r) => t :: tpTokenize fuel r

/-- The grammar of `Asn1Parser.grammar` (parser.py lines 171-900),
transcribed production by production (tags dropped — this phase's parse
tree is discarded by `parse_string`, only acceptance is observable).
Productions that no input of this development can reach are cut to
`G.unmod` after their deciding leading tokens. -/
def asn1Env : String → G
  | "module_definition" =>
      .seq [.ref "module_identifier", .tok "DEFINITIONS", .ref "tag_default",
            .ref "extension_default", .tok "::=", .tok "BEGIN",
            .ref "module_body", .tok "END"]
  | "module_identifier" => .seq [.ref "module_reference", .ref "definitive_identifier"]
  | "module_reference" => .ref "type_reference"
  | "definitive_identifier" => .opt (.seq [.tok "\x7b", .unmod])
  | "tag_default" =>
      .opt (.seq [.alt [.tok "EXPLICIT", .tok "IMPLICIT", .tok "AUTOMATIC"], .tok "TAGS"])
  | "extension_default" => .opt (.seq [.tok "EXTENSIBILITY", .tok "IMPLIED"])
  | "module_body" => .seq [.ref "exports", .ref "imports", .ref "assignment_list"]
  | "exports" => .opt (.seq [.tok "EXPORTS", .unmod])
  | "imports" => .opt (.seq [.tok "IMPORTS", .unmod])
  | "assignment_list" => .star (.ref "assignment")
  | "assignment" =>
      .alt [.ref "parameterized_object_set_assignment",
            .ref "parameterized_object_assignment",
            .ref "parameterized_object_class_assignment",
            .ref "parameterized_type_assignment",
            .ref "parameterized_value_assignment"]
  | "parameterized_object_set_assignment" =>
      .seq [.ref "object_set_reference", .ref "parameter_list",
            .ref "defined_object_class", .tok "::=", .ref "object_set"]
  | "parameterized_object_assignment" =>
      .seq [.ref "object_reference", .ref "parameter_list",
            .ref "defined_object_class", .tok "::=", .ref "object_"]
  | "parameterized_object_class_assignment" =>
      .seq [.ref "object_class_reference", .ref "parameter_list", .tok "::=",
            .ref "object_class"]
  | "parameterized_type_assignment" =>
      .seq [.ref "type_reference", .ref "parameter_list", .tok "::=", .ref "type_"]
  | "parameterized_value_assignment" =>
      .seq [.ref "value_reference", .ref "type_", .tok "::=", .ref "value"]
  | "type_reference" => .tok "TREF"
  | "value_reference" => .tok "IDENT"
  | "object_set_reference" => .ref "type_reference"
  | "object_class_reference" => .ref "type_reference"
  | "object_reference" => .ref "value_reference"
  | "defined_object_class" => .ref "object_class_reference"
  | "parameter_list" => .opt (.seq [.tok "\x7b", .unmod])
  | "actual_parameter_list" => .seq [.tok "\x7b", .unmod]
  | "object_set" => .seq [.tok "\x7b", .unmod]
  | "defined_object" => .nomatch
  | "default_syntax" => .seq [.tok "\x7b", .unmod]
  | "defined_syntax" => .nomatch
  | "object_defn" => .alt [.ref "default_syntax", .ref "defined_syntax"]
  | "object_from_object" => .nomatch
  | "parameterized_object" => .seq [.ref "defined_object", .ref "actual_parameter_list"]
  | "object_" =>
      .alt [.ref "defined_object", .ref "object_defn", .ref "object_from_object",
            .ref "parameterized_object"]
  | "object_class_defn" => .seq [.tok "CLASS", .unmod]
  | "parameterized_object_class" =>
      .seq [.ref "defined_object_class", .ref "actual_parameter_list"]
  | "object_class" => .alt [.ref "object_class_defn", .ref "parameterized_object_class"]
  | "type_" =>
      .alt [.seq [.alt [.ref "builtin_type", .ref "referenced_type"],
                  .star (.ref "constraint")],
            .ref "type_with_constraint"]
  | "referenced_type" => .ref "type_reference"
  | "type_with_constraint" => .seq [.alt [.tok "SET", .tok "SEQUENCE"], .unmod]
  | "builtin_type" =>
      .alt [.ref "choice_type", .ref "integer_type", .ref "null_type",
            .ref "bit_string_type", .ref "octet_string_type",
            .ref "enumerated_type", .tok "IA5String", .ref "boolean_type",
            .ref "real_type", .ref "character_string_type",
            .ref "object_class_field_type", .ref "sequence_type",
            .ref "set_type", .ref "sequence_of_type", .ref "set_of_type",
            .ref "object_identifier_type", .ref "tagged_type",
            .ref "any_defined_by_type", .tok "ANY", .tok "EXTERNAL"]
  | "choice_type" => .seq [.tok "CHOICE", .tok "\x7b", .unmod]
  | "integer_type" =>
      .seq [.tok "INTEGER",
            .opt (.seq [.tok "\x7b", .dlist (.ref "named_number") (.tok ","),
                        .tok "\x7d"])]
  | "named_number" =>
      .seq [.tok "IDENT", .tok "(", .alt [.ref "signed_number", .ref "defined_value"],
            .tok ")"]
  | "signed_number" => .tok "NUMBER"
  | "null_type" => .tok "NULL"
  | "bit_string_type" =>
      .seq [.tok "BIT", .tok "STRING",
            .opt (.seq [.tok "\x7b", .dlist (.ref "named_bit") (.tok ","),
                        .tok "\x7d"])]
  | "named_bit" =>
      .seq [.tok "IDENT", .tok "(", .alt [.ref "number", .ref "defined_value"],
            .tok ")"]
  | "number" => .tok "NUMBER"
  | "octet_string_type" => .seq [.tok "OCTET", .tok "STRING"]
  | "enumerated_type" =>
      .seq [.tok "ENUMERATED", .tok "\x7b", .ref "enumerations", .tok "\x7d"]
  | "enumerations" =>
      .seq [.ref "root_enumeration",
            .opt (.seq [.tok ",", .tok "...", .ref "exception_spec",
                        .opt (.seq [.tok ",", .ref "additional_enumeration"])])]
  | "root_enumeration" => .ref "enumeration"
  | "additional_enumeration" => .ref "enumeration"
  | "enumeration" => .dlist (.ref "enumeration_item") (.tok ",")
  | "enumeration_item" => .alt [.ref "named_number", .tok "IDENT"]
  | "exception_spec" => .opt (.seq [.tok "!", .unmod])
  | "boolean_type" => .tok "BOOLEAN"
  | "real_type" => .tok "REAL"
  | "character_string_type" =>
      .alt [.ref "restricted_character_string_type",
            .ref "unrestricted_character_string_type"]
  | "restricted_character_string_type" =>
      .alt [.tok "BMPString", .tok "GeneralString", .tok "GraphicString",
            .tok "IA5String", .tok "ISO646String", .tok "NumericString",
            .tok "PrintableString", .tok "TeletexString", .tok "UTCTime",
            .tok "GeneralizedTime", .tok "T61String", .tok "UniversalString",
            .tok "UTF8String", .tok "VideotexString", .tok "VisibleString"]
  | "unrestricted_character_string_type" => .seq [.tok "CHARACTER", .tok "STRING"]
  | "object_class_field_type" =>
      .seq [.ref "defined_object_class", .tok ".", .ref "field_name"]
  | "field_name" => .ref "primitive_field_name"
  | "primitive_field_name" =>
      .alt [.ref "type_field_reference", .ref "value_field_reference",
            .nomatch, .nomatch, .nomatch]
  | "type_field_reference" => .seq [.tok "&", .ref "type_reference"]
  | "value_field_reference" => .seq [.tok "&", .ref "value_reference"]
  | "sequence_type" => .seq [.tok "SEQUENCE", .tok "\x7b", .unmod]
  | "set_type" => .seq [.tok "SET", .tok "\x7b", .unmod]
  | "sequence_of_type" => .seq [.tok "SEQUENCE", .tok "OF", .unmod]
  | "set_of_type" => .seq [.tok "SET", .tok "OF", .unmod]
  | "object_identifier_type" => .seq [.tok "OBJECT", .tok "IDENTIFIER"]
  | "tagged_type" => .seq [.ref "tag", .unmod]
  | "tag" => .seq [.tok "[", .unmod]
  | "any_defined_by_type" =>
      .seq [.tok "ANY", .tok "DEFINED", .tok "BY", .ref "value_reference"]
  | "constraint" =>
      .seq [.tok "(", .ref "constraint_spec", .ref "exception_spec", .tok ")"]
  | "constraint_spec" => .alt [.ref "subtype_constraint", .ref "general_constraint"]
  | "subtype_constraint" => .ref "element_set_specs"
  | "element_set_specs" =>
      .seq [.ref "root_element_set_spec",
            .opt (.seq [.tok ",", .tok "...",
                        .opt (.seq [.tok ",", .ref "additional_element_set_spec"])])]
  | "root_element_set_spec" => .ref "element_set_spec"
  | "additional_element_set_spec" => .ref "element_set_spec"
  | "element_set_spec" => .alt [.ref "unions", .seq [.tok "ALL", .ref "exclusions"]]
  | "unions" =>
      .dlist (.ref "elements") (.alt [.ref "union_mark", .ref "intersection_mark"])
  | "union_mark" => .alt [.tok "|", .tok "UNION"]
  | "intersection_mark" => .alt [.tok "^", .tok "INTERSECTION"]
  | "exclusions" => .seq [.tok "EXCEPT", .ref "elements"]
  | "elements" =>
      .alt [.ref "subtype_elements", .ref "object_set_elements",
            .seq [.tok "(", .ref "element_set_spec", .tok ")"]]
  | "object_set_elements" =>
      .alt [.ref "object_", .ref "defined_object_set",
            .ref "object_set_from_objects", .ref "parameterized_object_set"]
  | "defined_object_set" =>
      .alt [.ref "external_object_set_reference", .ref "object_set_reference"]
  | "external_object_set_reference" => .nomatch
  | "object_set_from_objects" => .nomatch
  | "parameterized_object_set" =>
      .seq [.ref "defined_object_set", .ref "actual_parameter_list"]
  | "subtype_elements" =>
      .alt [.ref "size_constraint", .ref "permitted_alphabet", .ref "value_range",
            .ref "inner_type_constraints", .ref "single_value",
            .ref "pattern_constraint", .ref "contained_subtype",
            .ref "type_constraint"]
  | "size_constraint" => .seq [.tok "SIZE", .ref "constraint"]
  | "permitted_alphabet" => .seq [.tok "FROM", .ref "constraint"]
  | "value_range" => .seq [.ref "lower_endpoint", .tok "..", .ref "upper_endpoint"]
  | "lower_endpoint" => .seq [.ref "lower_end_value", .opt (.tok "<")]
  | "upper_endpoint" => .seq [.opt (.tok "<"), .ref "upper_end_value"]
  | "lower_end_value" => .alt [.ref "value", .tok "MIN"]
  | "upper_end_value" => .alt [.ref "value", .tok "MAX"]
  | "inner_type_constraints" =>
      .alt [.seq [.tok "WITH", .tok "COMPONENT", .ref "single_type_constraint"],
            .seq [.tok "WITH", .tok "COMPONENTS", .ref "multiple_type_constraints"]]
  | "single_type_constraint" => .ref "constraint"
  | "multiple_type_constraints" => .seq [.tok "\x7b", .unmod]
  | "single_value" => .ref "value"
  | "pattern_constraint" => .seq [.tok "PATTERN", .ref "value"]
  | "contained_subtype" => .seq [.opt (.tok "INCLUDES"), .ref "type_"]
  | "type_constraint" => .ref "type_"
  | "general_constraint" =>
      .alt [.ref "user_defined_constraint", .ref "table_constraint",
            .ref "contents_constraint"]
  | "user_defined_constraint" =>
      .seq [.tok "CONSTRAINED", .tok "BY", .tok "\x7b", .unmod]
  | "table_constraint" =>
      .alt [.ref "component_relation_constraint", .ref "simple_table_constraint"]
  | "component_relation_constraint" => .seq [.tok "\x7b", .unmod]
  | "simple_table_constraint" => .ref "object_set"
  | "contents_constraint" =>
      .alt [.seq [.tok "CONTAINING", .ref "type_",
                  .opt (.seq [.tok "ENCODED", .tok "BY", .ref "value"])],
            .seq [.tok "ENCODED", .tok "BY", .ref "value"]]
  | "value" => .ref "object_class_field_value"
  | "object_class_field_value" =>
      .alt [.ref "open_type_field_val", .ref "fixed_type_field_val"]
  | "open_type_field_val" => .seq [.ref "type_", .tok ":", .ref "value"]
  | "fixed_type_field_val" => .alt [.ref "builtin_value", .ref "referenced_value"]
  | "referenced_value" => .nomatch
  | "builtin_value" =>
      .alt [.ref "bit_string_value", .ref "boolean_value",
            .ref "character_string_value", .ref "choice_value",
            .ref "relative_oid_value", .ref "sequence_value",
            .ref "enumerated_value", .ref "real_value", .ref "integer_value",
            .ref "null_value", .ref "object_identifier_value",
            .ref "sequence_of_value"]
  | "bit_string_value" =>
      .alt [.tok "BSTRING", .tok "HSTRING",
            .seq [.tok "\x7b", .opt (.dlist (.tok "IDENT") (.tok ",")), .tok "\x7d"]]
  | "boolean_value" => .alt [.tok "TRUE", .tok "FALSE"]
  | "character_string_value" =>
      .alt [.ref "restricted_character_string_value",
            .ref "unrestricted_character_string_value"]
  | "unrestricted_character_string_value" => .nomatch
  | "restricted_character_string_value" =>
      .alt [.tok "CSTRING", .ref "character_string_list", .ref "quadruple",
            .ref "tuple_"]
  | "character_string_list" => .seq [.tok "\x7b", .ref "charsyms", .tok "\x7d"]
  | "charsyms" => .dlist (.ref "chars_defn") (.tok ",")
  | "chars_defn" =>
      .alt [.tok "CSTRING", .ref "quadruple", .ref "tuple_", .ref "defined_value"]
  | "quadruple" =>
      .seq [.tok "\x7b", .ref "number", .tok ",", .ref "number", .tok ",",
            .ref "number", .tok ",", .ref "number", .tok "\x7d"]
  | "tuple_" =>
      .seq [.tok "\x7b", .ref "number", .tok ",", .ref "number", .tok "\x7d"]
  | "choice_value" => .seq [.tok "IDENT", .tok ":", .ref "value"]
  | "relative_oid_value" =>
      .seq [.tok "\x7b", .ref "relative_oid_component_list", .tok "\x7d"]
  | "relative_oid_component_list" => .many1 (.ref "relative_oid_components")
  | "relative_oid_components" =>
      .alt [.ref "number_form", .ref "name_and_number_form", .ref "defined_value"]
  | "sequence_value" =>
      .seq [.tok "\x7b", .opt (.ref "component_value_list"), .tok "\x7d"]
  | "component_value_list" => .dlist (.ref "named_value") (.tok ",")
  | "named_value" => .seq [.tok "IDENT", .ref "value"]
  | "enumerated_value" => .tok "IDENT"
  | "real_value" => .alt [.ref "numeric_real_value", .ref "special_real_value"]
  | "numeric_real_value" => .alt [.ref "real_number", .ref "sequence_value"]
  | "real_number" => .seq [.tok "NUMBER", .tok ".", .opt (.tok "NUMBER")]
  | "special_real_value" => .alt [.tok "PLUS-INFINITY", .tok "MINUS-INFINITY"]
  | "integer_value" => .alt [.ref "signed_number", .tok "IDENT"]
  | "null_value" => .tok "NULL"
  | "object_identifier_value" =>
      .alt [.seq [.tok "\x7b", .ref "obj_id_components_list", .tok "\x7d"],
            .seq [.tok "\x7b", .ref "defined_value", .ref "obj_id_components_list",
                  .tok "\x7d"]]
  | "obj_id_components_list" => .many1 (.ref "obj_id_components")
  | "obj_id_components" =>
      .alt [.ref "name_and_number_form", .ref "defined_value", .ref "number_form",
            .ref "name_form"]
  | "name_and_number_form" =>
      .seq [.tok "IDENT", .tok "(", .ref "number_form", .tok ")"]
  | "number_form" => .alt [.ref "number", .ref "defined_value"]
  | "name_form" => .tok "IDENT"
  | "sequence_of_value" => .nomatch
  | "defined_value" =>
      .alt [.ref "external_value_reference", .ref "parameterized_value",
            .ref "value_reference"]
  | "external_value_reference" =>
      .seq [.ref "module_reference", .tok ".", .ref "value_reference"]
  | "parameterized_value" =>
      .seq [.ref "simple_defined_value", .ref "actual_parameter_list"]
  | "simple_defined_value" =>
      .alt [.ref "external_value_reference", .ref "value_reference"]
  | _ => .unmod

/-- Phase 1 of `parse_string`: tokenize and run the grammar of
`Asn1Parser` (its specification is `OneOrMore(module_definition)` and the
engine requires the whole token stream to be consumed).  `some true`:
phase 1 succeeds (its transformer output is then discarded); `some
false`: phase 1 raises `ParseError`; `none`: an unmodelled branch was
consulted. -/
def asn1TpAccepts (s : List Char) : Option Bool :=
  match tpRun asn1Env 400 (.many1 (.ref "module_definition"))
      (tpTokenize (s.length + 1) s) with
  | .ok [] => some true
  | .ok _ => some false
  | .fail => some false
  | .unmod => none

/-! ## Phase 2: the combinator grammar (`create_grammar`, parser.py lines 1781-2694)

The pyparsing grammar works on the raw character string (comments first
blanked by `ignore_comments`); its parse actions build the returned
dictionary.  It is modelled as a fueled recursive-descent parser whose
result type `PR` distinguishes a backtrackable mismatch (`fail`, the
engine's `ParseException`) from a raised error (`err`, covering both
`ParseSyntaxException` — introduced by the grammar's `-` operator, which
no alternative catches — and the conversion-layer exceptions). -/

/-- Outcome of one pyparsing-style parser. -/
inductive PR (α : Type) where
  | ok : α → List Char → PR α
  | fail : PR α
  | err : PErr → PR α

/-- `And` sequencing: a mismatch or error of the first part is final. -/
def prSeq {α β : Type} (x : PR α) (f : α → List Char → PR β) : PR β :=
  match x with
  | .ok a r => f a r
  | .fail => .fail
  | .err e => .err e

/-- `MatchFirst` alternation: only a mismatch falls through. -/
def prOr {α : Type} (x : PR α) (y : Unit → PR α) : PR α :=
  match x with
  | .fail => y ()
  | x => x

/-- The grammar's `-` operator: past it, a mismatch becomes a
`ParseSyntaxException`, which no surrounding alternative recovers from. -/
def prCommit {α : Type} (x : PR α) : PR α :=
  match x with
  | .fail => .err .synErr
  | x => x

/-- pyparsing's default skippable whitespace. -/
def pyWsChar (c : Char) : Bool := c = ' ' ∨ c = '\n' ∨ c = '\t'

/-- Skip leading whitespace (done before every terminal). -/
def pySkipWs (l : List Char) : List Char := l.dropWhile pyWsChar

/-- `Literal`: exact text after whitespace skipping, no boundary check. -/
def pLit (pat : List Char) (l : List Char) : PR Unit :=
  match stripPre pat (pySkipWs l) with
  | some rest => .ok () rest
  | none => .fail

/-- Characters pyparsing's `Keyword` refuses directly after a match
(its default `identChars`). -/
def isKwIdentChar (c : Char) : Bool :=
  isUpperAlpha c ∨ isLowerAlpha c ∨ isDigitChar c ∨ c = '_' ∨ c = '$'

/-- `Keyword`: exact text after whitespace skipping, not followed by an
identifier character. -/
def pKw (pat : List Char) (l : List Char) : PR Unit :=
  match stripPre pat (pySkipWs l) with
  | some [] => .ok () []
  | some (c :: rest) => if isKwIdentChar c then .fail else .ok () (c :: rest)
  | none => .fail

/-- `typereference`/`modulereference`: the guarded uppercase reference
(parser.py lines 2559-2560, 2592-2593), built on `typeReferenceMatch`. -/
def pyTypeReference (l : List Char) : PR String :=
  match typeReferenceMatch (pySkipWs l) with
  | some (name, rest) => .ok (String.mk name) rest
  | none => .fail

/-- `objectclassreference` (parser.py lines 2044-2045):
`NotAny(reserved_words) + Regex(r'[A-Z][A-Z0-9-]*')`. -/
def pyObjectClassRef (l : List Char) : PR String :=
  let l := pySkipWs l
  if reservedWordsAt l then .fail
  else
    match l with
    | c :: rest =>
        if isUpperAlpha c then
          .ok (String.mk (c :: rest.takeWhile (fun d => isUpperAlpha d ∨ isDigitChar d ∨ d = '-')))
            (rest.dropWhile (fun d => isUpperAlpha d ∨ isDigitChar d ∨ d = '-'))
        else .fail
    | [] => .fail

/-- `identifier`: `Regex(r'[a-z][a-zA-Z0-9-]*')` (parser.py line 1859). -/
def pyIdentifierTok (l : List Char) : PR String :=
  match pySkipWs l with
  | c :: rest =>
      if isLowerAlpha c then
        .ok (String.mk (c :: rest.takeWhile trefBodyChar)) (rest.dropWhile trefBodyChar)
      else .fail
  | [] => .fail

/-- `integer = Word(nums + '-')` with `convert_integer` (parser.py lines
1879, 2651): `int()` of the run when it parses, the raw text otherwise. -/
def pyIntegerTok (l : List Char) : PR PyVal :=
  let l := pySkipWs l
  let run := l.takeWhile (fun c => isDigitChar c ∨ c = '-')
  match run with
  | [] => .fail
  | _ =>
      let text := String.mk run
      .ok (match pyStrToInt text with | some n => .int n | none => .str text)
        (l.dropWhile (fun c => isDigitChar c ∨ c = '-'))

/-- Characters of `number = Word(printables, excludeChars=',(){}[].:=;"|')`
(parser.py line 1885). -/
def isNumberWordChar (c : Char) : Bool :=
  33 ≤ c.toNat ∧ c.toNat ≤ 126 ∧
    ¬ (c = ',' ∨ c = '(' ∨ c = ')' ∨ c = '\x7b' ∨ c = '\x7d' ∨ c = '[' ∨
       c = ']' ∨ c = '.' ∨ c = ':' ∨ c = '=' ∨ c = ';' ∨ c = '"' ∨ c = '|')

/-- `signed_number <<= Combine(Optional('-') + number)` with
`convert_integer` (parser.py lines 2492, 2652): the optional sign must be
adjacent to the word. -/
def pySignedNumberTok (l : List Char) : PR PyVal :=
  let l := pySkipWs l
  let (sign, l') := match l with
    | '-' :: rest => (['-'], rest)
    | _ => ([], l)
  let run := l'.takeWhile isNumberWordChar
  match run with
  | [] => .fail
  | _ =>
      let text := String.mk (sign ++ run)
      .ok (match pyStrToInt text with | some n => .int n | none => .str text)
        (l'.dropWhile isNumberWordChar)

/-- First alternative of `value_range`: `Combine(integer + dot)` — a
digit/dash run immediately followed by a dot. -/
def pyAdjacentIntDot (l : List Char) : Option (List Char) :=
  let l := pySkipWs l
  let run := l.takeWhile (fun c => isDigitChar c ∨ c = '-')
  match run with
  | [] => none
  | _ =>
      match l.dropWhile (fun c => isDigitChar c ∨ c = '-') with
      | '.' :: rest => some rest
      | _ => none

/-- `real_number = Regex(r'[+-]?\d+\.?\d*([eE][+-]?\d+)?')` with
`convert_real_number` (parser.py lines 1880, 2653): an integer when the
match contains no dot. -/
def pyRealNumberTok (l : List Char) : PR PyVal :=
  let l := pySkipWs l
  let (sign, l1) := match l with
    | '+' :: rest => (['+'], rest)
    | '-' :: rest => (['-'], rest)
    | _ => ([], l)
  let digits := l1.takeWhile isDigitChar
  match digits with
  | [] => .fail
  | _ =>
      let l2 := l1.dropWhile isDigitChar
      let (frac, l3) := match l2 with
        | '.' :: rest => ('.' :: rest.takeWhile isDigitChar, rest.dropWhile isDigitChar)
        | _ => ([], l2)
      let (expo, l4) := match l3 with
        | e :: rest =>
            if e = 'e' ∨ e = 'E' then
              let (esign, r1) := match rest with
                | '+' :: r => (['+'], r)
                | '-' :: r => (['-'], r)
                | _ => ([], rest)
              let edigits := r1.takeWhile isDigitChar
              match edigits with
              | [] => ([], l3)
              | _ => (e :: esign ++ edigits, r1.dropWhile isDigitChar)
            else ([], l3)
        | [] => ([], l3)
      let text := sign ++ digits ++ frac ++ expo
      if frac.isEmpty then
        .ok (match pyStrToInt (String.mk text) with
             | some n => .int n
             | none => .str (String.mk text)) l4
      else .ok (.str (String.mk text)) l4

/-- `bstring = Regex(r"'[01\s]*'B")` with `convert_bstring` (parser.py
lines 1881, 2654). -/
def pyBstringTok (l : List Char) : PR PyVal :=
  match pySkipWs l with
  | c :: rest =>
      if c = squote then
        let body := rest.takeWhile (fun d => isBinDigit d ∨ isPyWs d)
        let r := rest.dropWhile (fun d => isBinDigit d ∨ isPyWs d)
        if closingMark 'B' r then
          .ok (.str (String.mk (convertBstring (c :: body ++ [squote, 'B'])))) (r.drop 2)
        else .fail
      else .fail
  | [] => .fail

/-- `hstring = Regex(r"'[0-9A-F\s]*'H")` with `convert_hstring`
(parser.py lines 1882, 2655). -/
def pyHstringTok (l : List Char) : PR PyVal :=
  match pySkipWs l with
  | c :: rest =>
      if c = squote then
        let body := rest.takeWhile (fun d => isHexUpper d ∨ isPyWs d)
        let r := rest.dropWhile (fun d => isHexUpper d ∨ isPyWs d)
        if closingMark 'H' r then
          .ok (.str (String.mk (convertHstring (c :: body ++ [squote, 'H'])))) (r.drop 2)
        else .fail
      else .fail
  | [] => .fail

/-! ### The conversion layer driven by the combinator grammar's actions -/

/-- `convert_number` (parser.py lines 1108-1115): unwrap a one-level
list, then `int()` with fallback to the original token. -/
def convertNumber (v : PyVal) : PyVal :=
  let v := match v with | .list (x :: _) => x | x => x
  match v with
  | .int n => .int n
  | .str s => (match pyStrToInt s with | some n => .int n | none => .str s)
  | x => x

/-- Python truthiness of the modelled values (`Tokens.__bool__` is
`len > 0`). -/
def pyTruthy : PyVal → Bool
  | .pyNone => false
  | .int n => ¬ n = 0
  | .str s => ¬ s = ""
  | .bool b => b
  | .tup l => ¬ l.isEmpty
  | .list l => ¬ l.isEmpty
  | .dict d => ¬ d.isEmpty
  | .toks _ l => ¬ l.isEmpty

/-- `convert_size` (parser.py lines 1118-1139) applied to the collected
constraint groups of a string-like type: the `SIZE`-led shape does not
arise in the modelled inputs, a dict first element reports its `size`
key, everything else gives `None`. -/
def convertSize (constraints : List PyVal) : Except PErr (Option PyVal) :=
  match constraints with
  | [] => .ok none
  | c0 :: _ =>
      match c0 with
      | .list (x :: _) =>
          (match x with
           | .str s => if s = "SIZE" then .error .unmodelled else .ok none
           | .dict d => .ok (dget d "size")
           | _ => .ok none)
      | .list [] => .error (.internalErr "IndexError")
      | _ => .ok none

/-- One step of the constraint loop of `convert_type` (parser.py lines
1510-1524): the extension-marker string becomes a `None` element of
`restricted-to`; a one-element group merges its dict into the type when
it carries `size`/`from`/`with-components`, and otherwise contributes
`convert_number` of its element to `restricted-to`. -/
def convertTypeStep (acc : List (String × PyVal) × List PyVal) (ct : PyVal) :
    List (String × PyVal) × List PyVal :=
  let (tyd, restricted) := acc
  match ct with
  | .str s =>
      if s = "..." then (tyd, restricted ++ [.pyNone])
      else if s.length = 1 then (tyd, restricted ++ [convertNumber (.str s)])
      else (tyd, restricted)
  | .list [x] =>
      (match x with
       | .dict d =>
           if dmem d "size" ∨ dmem d "from" ∨ dmem d "with-components" then
             (d.foldl (fun a kv => dset a kv.1 kv.2) tyd, restricted)
           else (tyd, restricted)
       | _ => (tyd, restricted ++ [convertNumber x]))
  | .tup [x] => (tyd, restricted ++ [convertNumber x])
  | _ => (tyd, restricted)

/-- `convert_type` (parser.py lines 1505-1551) on the `type_` group
`[converted_type, constraints]`: lift the constraints, drop a
`restricted-to` containing a brace, lift `size` for the string-like
types; the information-object `&`-types are outside the model. -/
def convertType (v : PyVal) : Except PErr PyVal :=
  match v with
  | .list [ty, .list constraints] => do
      let tyd ← (match ty with
        | .dict d => Except.ok d
        | _ => Except.error PErr.unmodelled)
      let (tyd, restricted) := constraints.foldl convertTypeStep (tyd, [])
      let restricted :=
        if restricted.any (fun w => match w with | .str s => s = "\x7b" | _ => false)
        then [] else restricted
      let tyd := if restricted.isEmpty then tyd else dset tyd "restricted-to" (.list restricted)
      let tyName := match dget tyd "type" with | some (.str s) => s | _ => ""
      let tyd ←
        if tyName = "BIT STRING" ∨ tyName = "OCTET STRING" ∨ tyName = "IA5String" ∨
           tyName = "VisibleString" ∨ tyName = "UTF8String" ∨ tyName = "NumericString" ∨
           tyName = "PrintableString" then do
          let sz ← convertSize constraints
          match sz with
          | some w => pure (if pyTruthy w then dset tyd "size" w else tyd)
          | none => pure tyd
        else pure tyd
      if tyName.data.any (fun c => c = '&') then .error .unmodelled
      else .ok (.dict tyd)
  | _ => .error .unmodelled

/-- `convert_tag` (parser.py lines 1223-1238) on the collected tag group;
an empty group (no tag written) gives no tag, and tagged inputs are
outside the model. -/
def convertTag (v : PyVal) : Except PErr (Option PyVal) :=
  match v with
  | .list [] => .ok none
  | _ => .error .unmodelled

/-- `convert_parameterized_type_assignment` (parser.py lines 1670-1684). -/
def convertPTA (name : String) (tagGroup : PyVal) (typeGroup : PyVal) :
    Except PErr (String × String × PyVal) := do
  let ty ← convertType typeGroup
  let tag ← convertTag tagGroup
  match tag with
  | none => .ok ("parameterized-type-assignment", name, ty)
  | some t =>
      match ty with
      | .dict d => .ok ("parameterized-type-assignment", name, .dict (dset d "tag" t))
      | _ => .error .unmodelled

/-- `convert_bit_string_value` (parser.py lines 1562-1572) on the
`BitStringValue` token wrapper. -/
def convertBitStringValue (inner : List PyVal) : Except PErr PyVal :=
  match inner with
  | v :: _ =>
      (match v with
       | .toks tag2 _ => if tag2 = "IdentifierList" then .error .unmodelled else .ok .pyNone
       | .str s => .ok (.str s)
       | _ => .ok .pyNone)
  | [] => .error (.internalErr "IndexError")

/-- `convert_value` (parser.py lines 1575-1597) on the value group's
token list and the (string) type name. -/
def convertValue (tokens : List PyVal) (ty : String) : Except PErr PyVal :=
  if ty = "INTEGER" then
    match tokens with
    | v :: _ => (pyInt v).map PyVal.int
    | [] => .error (.internalErr "IndexError")
  else if ty = "OBJECT IDENTIFIER" then .error .unmodelled
  else if ty = "BOOLEAN" then
    match tokens with
    | .str s :: _ => .ok (.bool (s = "TRUE"))
    | _ => .error .unmodelled
  else
    match tokens with
    | t0 :: _ =>
        (match t0 with
         | .toks tag inner =>
             if tag = "BitStringValue" then convertBitStringValue inner
             else .ok .pyNone
         | .str s => .ok (convertNumber (.str s))
         | .int n => .ok (.int n)
         | _ => .ok .pyNone)
    | [] => .error (.internalErr "IndexError")

/-- `convert_parameterized_value_assignment` (parser.py lines
1687-1702): the type name is `tokens[1][0][0]` (a `Tokens` or a dict
with a `type` key). -/
def convertPVA (name : String) (typeGroupWrapped : PyVal) (valueTokens : List PyVal) :
    Except PErr (String × String × PyVal) := do
  let inner ← (match typeGroupWrapped with
    | .list (.list (x :: _) :: _) => Except.ok x
    | _ => Except.error PErr.unmodelled)
  let tyName ← (match inner with
    | .toks _ (v :: _) =>
        (match v with | .str s => Except.ok s | _ => Except.error PErr.unmodelled)
    | .dict d =>
        (match dget d "type" with
         | some (.str s) => Except.ok s
         | _ => Except.error PErr.unmodelled)
    | .str s => Except.ok s
    | _ => Except.error PErr.unmodelled)
  let v ← convertValue valueTokens tyName
  .ok ("parameterized-value-assignment", name, .dict [("type", .str tyName), ("value", v)])

/-- `merge_dicts` (parser.py lines 1090-1091). -/
def mergeDicts (ds : List PyVal) : Except PErr (List (String × PyVal)) :=
  ds.foldlM (fun acc d =>
    match d with
    | .dict items => .ok (items.foldl (fun a kv => dset a kv.1 kv.2) acc)
    | _ => .error .unmodelled) []

/-- `convert_module_definition` (parser.py lines 1766-1774): attach
`extensibility-implied` (whether the extension-default group is
non-empty) and, when present, the tag default. -/
def convertModuleDefinition (hdr : List PyVal) (body : PyVal) : Except PErr PyVal :=
  match hdr, body with
  | [.str name, _, .list tagDef, .list extDef], .dict d =>
      let d := dset d "extensibility-implied" (.bool (¬ extDef.isEmpty))
      let d := match tagDef with
        | t0 :: _ => dset d "tags" t0
        | [] => d
      .ok (.dict [(name, .dict d)])
  | _, _ => .error .unmodelled

/-! ### Value productions without recursion (parser.py lines 2443-2530) -/

/-- `bit_string_value` (parser.py lines 2453-2460): a `bstring` or
`hstring` (converted by their parse actions), an identifier list in
braces, or `CONTAINING value` — wrapped in the `BitStringValue` tag. -/
def pyBitStringValue (l : List Char) : PR PyVal :=
  prOr (prSeq (pyBstringTok l) fun s r => .ok (.toks "BitStringValue" [s]) r) fun _ =>
  prOr (prSeq (pyHstringTok l) fun s r => .ok (.toks "BitStringValue" [s]) r) fun _ =>
  prOr (prSeq (pLit "\x7b".data l) fun _ _ => (.err .unmodelled : PR PyVal)) fun _ =>
  prOr (prSeq (pKw "CONTAINING".data l) fun _ _ => (.err .unmodelled : PR PyVal)) fun _ =>
  .fail

/-- `boolean_value = (TRUE | FALSE)` (parser.py line 2506). -/
def pyBooleanValue (l : List Char) : PR PyVal :=
  prOr (prSeq (pKw "TRUE".data l) fun _ r => .ok (.str "TRUE") r) fun _ =>
  prOr (prSeq (pKw "FALSE".data l) fun _ r => .ok (.str "FALSE") r) fun _ =>
  .fail

/-- `character_string_value` (parser.py lines 2281-2282): a quoted
cstring or one of the brace-led list forms, none of which occur in the
modelled inputs. -/
def pyCharacterStringValue (l : List Char) : PR PyVal :=
  prOr (prSeq (pLit "\"".data l) fun _ _ => (.err .unmodelled : PR PyVal)) fun _ =>
  prOr (prSeq (pLit "\x7b".data l) fun _ _ => (.err .unmodelled : PR PyVal)) fun _ =>
  .fail

/-- `real_value` (parser.py lines 2463-2468): a numeric real (via the
`real_number` regex, whose action yields an `int` when there is no dot),
a brace-led sequence value, or a signed infinity. -/
def pyRealValue (l : List Char) : PR PyVal :=
  prOr (pyRealNumberTok l) fun _ =>
  prOr (prSeq (pLit "\x7b".data l) fun _ _ => (.err .unmodelled : PR PyVal)) fun _ =>
  prOr (prSeq (pKw "PLUS-INFINITY".data l) fun _ r => .ok (.str "PLUS-INFINITY") r) fun _ =>
  prOr (prSeq (pKw "MINUS-INFINITY".data l) fun _ r => .ok (.str "MINUS-INFINITY") r) fun _ =>
  .fail

/-- `builtin_value` (parser.py lines 2511-2529) in source alternative
order; `choice_value`'s continuation past `identifier :` and the
brace-led object-identifier/relative-oid/sequence forms are outside the
model, and `sequence_of_value`/`tagged_value` are `NoMatch`. -/
def pyBuiltinValue (l : List Char) : PR PyVal :=
  prOr (pyBitStringValue l) fun _ =>
  prOr (pyBooleanValue l) fun _ =>
  prOr (pyCharacterStringValue l) fun _ =>
  prOr (prSeq (pyIdentifierTok l) fun _ r1 =>
        prSeq (pLit ":".data r1) fun _ _ => (.err .unmodelled : PR PyVal)) fun _ =>
  prOr (prSeq (pLit "\x7b".data l) fun _ _ => (.err .unmodelled : PR PyVal)) fun _ =>
  prOr (prSeq (pyIdentifierTok l) fun s r => .ok (.str s) r) fun _ =>
  prOr (pyRealValue l) fun _ =>
  prOr (pySignedNumberTok l) fun _ =>
  prOr (prSeq (pyIdentifierTok l) fun s r => .ok (.str s) r) fun _ =>
  prOr (prSeq (pKw "NULL".data l) fun _ r => .ok (.str "NULL") r) fun _ =>
  .fail

/-- `fixed_type_field_val = builtin_value | referenced_value(NoMatch)`
wrapped by the `value` `Group`. -/
def pyFixedValue (l : List Char) : PR PyVal :=
  match pyBuiltinValue l with
  | .ok v r => .ok (.list [v]) r
  | x => x

/-- `referenced_type = defined_type` with `convert_defined_type`
(parser.py lines 2583-2586, 1421-1424): an external reference (dot) or a
parameterized reference (brace) is outside the model; a plain guarded
type reference yields its name as the `type`. -/
def pyReferencedType (l : List Char) : PR PyVal :=
  match pyTypeReference l with
  | .fail => .fail
  | .err e => .err e
  | .ok name r1 =>
      match pLit ".".data r1 with
      | .ok _ _ => .err .unmodelled
      | .err e => .err e
      | .fail =>
          match pLit "\x7b".data r1 with
          | .ok _ _ => .err .unmodelled
          | .err e => .err e
          | .fail => .ok (.dict [("type", .str name)]) r1

/-! ### The enumeration productions (parser.py lines 2472-2497) -/

/-- `named_number = identifier + '(' + (signed_number | defined_value) + ')'`
(parser.py lines 2493-2496), as grouped by `enumeration_item`: the
parentheses are kept as tokens (hence `int(item[2])` downstream). -/
def pyNamedNumber (l : List Char) : PR PyVal :=
  prSeq (pyIdentifierTok l) fun nm r1 =>
  prSeq (pLit "(".data r1) fun _ r2 =>
  prSeq (prOr (pySignedNumberTok r2) fun _ =>
         prSeq (pyIdentifierTok r2) fun s r => .ok (.str s) r) fun v r3 =>
  prSeq (pLit ")".data r3) fun _ r4 =>
  .ok (.list [.str nm, .str "(", v, .str ")"]) r4

/-- `enumeration_item = Group(named_number) | identifier`. -/
def pyEnumItem (l : List Char) : PR PyVal :=
  prOr (pyNamedNumber l) fun _ =>
  prSeq (pyIdentifierTok l) fun s r => .ok (.str s) r

/-- The tail of `delimitedList(enumeration_item)`: comma-item pairs,
backtracking over a trailing comma. -/
def pyEnumTail : Nat → List Char → List PyVal → PR (List PyVal)
  | 0, _, _ => .err .unmodelled
  | Nat.succ fuel, l, acc =>
      match pLit ",".data l with
      | .fail => .ok acc l
      | .err e => .err e
      | .ok _ r1 =>
          match pyEnumItem r1 with
          | .ok v r2 => pyEnumTail fuel r2 (acc ++ [v])
          | .fail => .ok acc l
          | .err e => .err e

/-- `enumerations` (parser.py lines 2478-2483): the root enumeration,
then optionally `, ...` (committed past the comma, the suppressed marker
group) and optionally `, additional_enumeration` (committed past the
comma).  Mirrors the `Group(Group(root) + Group(...))` shape as the pair
(root items, extension: `none` when absent, otherwise the additional
items — the source's `extension[1:]`). -/
def pyEnumerations (fuel : Nat) (l : List Char) :
    PR (List PyVal × Option (List PyVal)) :=
  prSeq (pyEnumItem l) fun v0 r0 =>
  prSeq (pyEnumTail fuel r0 [v0]) fun root r1 =>
  match pLit ",".data r1 with
  | .fail => .ok (root, none) r1
  | .err e => .err e
  | .ok _ r2 =>
      prSeq (prCommit (pLit "...".data r2)) fun _ r3 =>
      match pLit ",".data r3 with
      | .fail => .ok (root, some []) r3
      | .err e => .err e
      | .ok _ r4 =>
          prSeq (prCommit (prSeq (pyEnumItem r4) fun w r =>
                 pyEnumTail fuel r [w])) fun add r5 =>
          .ok (root, some add) r5

/-! ### Built-in types (parser.py lines 2538-2552 with their actions) -/

/-- `restricted_character_string_type` keywords in source order
(parser.py lines 2264-2278), then `CHARACTER STRING`; the action
`convert_keyword_type` records the keyword as the `type`. -/
def pyKwTypeFrom : List String → List Char → PR PyVal
  | [], _ => .fail
  | kw :: rest, l =>
      prOr (prSeq (pKw kw.data l) fun _ r => .ok (.dict [("type", .str kw)]) r)
        fun _ => pyKwTypeFrom rest l

/-- `character_string_type` (parser.py lines 2283-2284). -/
def pyCharacterStringType (l : List Char) : PR PyVal :=
  pyKwTypeFrom
    ["BMPString", "GeneralString", "GraphicString", "IA5String",
     "ISO646String", "NumericString", "PrintableString", "TeletexString",
     "UTCTime", "GeneralizedTime", "T61String", "UniversalString",
     "UTF8String", "VideotexString", "VisibleString", "CHARACTER STRING"] l

/-- `builtin_type` (parser.py lines 2538-2552) in source alternative
order, each with its conversion action.  Structured types (`CHOICE`,
`SEQUENCE`, `SET`), named-number/named-bit lists, the
information-object field types past their deciding dot, and `ANY
DEFINED BY` are outside the model. -/
def pyBuiltinType (fuel : Nat) (l : List Char) : PR PyVal :=
  prOr (prSeq (pKw "CHOICE".data l) fun _ _ => (.err .unmodelled : PR PyVal)) fun _ =>
  prOr (prSeq (pKw "INTEGER".data l) fun _ r =>
        match pLit "\x7b".data r with
        | .ok _ _ => .err .unmodelled
        | .err e => .err e
        | .fail => .ok (.dict [("type", .str "INTEGER")]) r) fun _ =>
  prOr (prSeq (pKw "NULL".data l) fun _ r =>
        .ok (.dict [("type", .str "NULL")]) r) fun _ =>
  prOr (prSeq (pKw "REAL".data l) fun _ r =>
        .ok (.dict [("type", .str "REAL")]) r) fun _ =>
  prOr (prSeq (pKw "BIT STRING".data l) fun _ r =>
        match pLit "\x7b".data r with
        | .ok _ _ => .err .unmodelled
        | .err e => .err e
        | .fail => .ok (.dict [("type", .str "BIT STRING")]) r) fun _ =>
  prOr (prSeq (pKw "OCTET STRING".data l) fun _ r =>
        .ok (.dict [("type", .str "OCTET STRING")]) r) fun _ =>
  prOr (prSeq (pKw "ENUMERATED".data l) fun _ r1 =>
        prSeq (prCommit (pLit "\x7b".data r1)) fun _ r2 =>
        prSeq (prCommit (pyEnumerations fuel r2)) fun re r3 =>
        prSeq (prCommit (pLit "\x7d".data r3)) fun _ r4 =>
        match convertEnumValues re.1 re.2 with
        | .ok vals =>
            .ok (.dict [("type", .str "ENUMERATED"), ("values", .list vals)]) r4
        | .error e => .err e) fun _ =>
  prOr (prSeq (pKw "SEQUENCE".data l) fun _ _ => (.err .unmodelled : PR PyVal)) fun _ =>
  prOr (prSeq (pyObjectClassRef l) fun _ r =>
        (match r with
         | '.' :: _ => (.err .unmodelled : PR PyVal)
         | _ => .fail)) fun _ =>
  prOr (prSeq (pKw "SET".data l) fun _ _ => (.err .unmodelled : PR PyVal)) fun _ =>
  prOr (prSeq (pKw "OBJECT IDENTIFIER".data l) fun _ r =>
        match pLit "(".data r with
        | .ok _ _ => .err .unmodelled
        | .err e => .err e
        | .fail => .ok (.dict [("type", .str "OBJECT IDENTIFIER")]) r) fun _ =>
  prOr (prSeq (pKw "BOOLEAN".data l) fun _ r =>
        .ok (.dict [("type", .str "BOOLEAN")]) r) fun _ =>
  pyCharacterStringType l

/-! ### The mutually recursive core: types, constraints, values -/

mutual

/-- `value <<= Group(object_class_field_value)` (parser.py line 2530):
the open-type form `type_ : value` first, then the fixed-type form. -/
def pyValue : Nat → List Char → PR PyVal
  | 0, _ => .err .unmodelled
  | Nat.succ fuel, l =>
      match pyType fuel l with
      | .err e => .err e
      | .fail => pyFixedValue l
      | .ok ty r1 =>
          match pLit ":".data r1 with
          | .err e => .err e
          | .fail => pyFixedValue l
          | .ok _ r2 =>
              match pyValue fuel r2 with
              | .ok v r3 => .ok (.list [ty, .str ":", v]) r3
              | .fail => pyFixedValue l
              | .err e => .err e
  termination_by structural fuel _ => fuel

/-- `type_ <<= Group((builtin_type | any_defined_by_type |
referenced_type) + Group(ZeroOrMore(constraint)))` (parser.py lines
2553-2556). -/
def pyType : Nat → List Char → PR PyVal
  | 0, _ => .err .unmodelled
  | Nat.succ fuel, l =>
      prSeq (prOr (pyBuiltinType fuel l) fun _ =>
             prOr (prSeq (pKw "ANY DEFINED BY".data l) fun _ _ =>
                   (.err .unmodelled : PR PyVal)) fun _ =>
             pyReferencedType l) fun tyd r1 =>
      prSeq (pyConstraintStar fuel r1 []) fun cs r2 =>
      .ok (.list [tyd, .list cs]) r2
  termination_by structural fuel _ => fuel

/-- `ZeroOrMore(constraint)`, concatenating the constraints' token
lists as `ParseResults` concatenation does. -/
def pyConstraintStar : Nat → List Char → List PyVal → PR (List PyVal)
  | 0, _, _ => .err .unmodelled
  | Nat.succ fuel, l, acc =>
      match pyConstraint fuel l with
      | .ok cs r => pyConstraintStar fuel r (acc ++ cs)
      | .fail => .ok acc l
      | .err e => .err e
  termination_by structural fuel _ _ => fuel

/-- `constraint <<= Suppress('(') - constraint_spec - Suppress(')')`
(parser.py lines 2230-2232); `constraint_spec = general_constraint |
subtype_constraint` (lines 2227-2228), where every general constraint is
decided by its leading keyword or brace and is outside the model.
`convert_constraint` returns `None`, leaving the tokens unchanged. -/
def pyConstraint : Nat → List Char → PR (List PyVal)
  | 0, _ => .err .unmodelled
  | Nat.succ fuel, l =>
      match pLit "(".data l with
      | .fail => .fail
      | .err e => .err e
      | .ok _ r1 =>
          match pKw "CONSTRAINED BY".data r1 with
          | .ok _ _ => .err .unmodelled
          | .err e => .err e
          | .fail =>
          match pLit "\x7b".data r1 with
          | .ok _ _ => .err .unmodelled
          | .err e => .err e
          | .fail =>
          match pKw "CONTAINING".data r1 with
          | .ok _ _ => .err .unmodelled
          | .err e => .err e
          | .fail =>
          match pKw "ENCODED_BY".data r1 with
          | .ok _ _ => .err .unmodelled
          | .err e => .err e
          | .fail =>
          prSeq (prCommit (pyElementSetSpecs fuel r1)) fun ts r2 =>
          prSeq (prCommit (pLit ")".data r2)) fun _ r3 =>
          .ok ts r3
  termination_by structural fuel _ => fuel

/-- `element_set_specs` (parser.py lines 2220-2223): the root element
set, then optionally a committed `...` and a committed additional set. -/
def pyElementSetSpecs : Nat → List Char → PR (List PyVal)
  | 0, _ => .err .unmodelled
  | Nat.succ fuel, l =>
      prSeq (pyElementSetSpec fuel l) fun ts r1 =>
      match pLit ",".data r1 with
      | .fail => .ok ts r1
      | .err e => .err e
      | .ok _ r2 =>
          prSeq (prCommit (pLit "...".data r2)) fun _ r3 =>
          match pLit ",".data r3 with
          | .fail => .ok (ts ++ [.str "..."]) r3
          | .err e => .err e
          | .ok _ r4 =>
              prSeq (prCommit (pyElementSetSpec fuel r4)) fun ts2 r5 =>
              .ok (ts ++ [.str "..."] ++ ts2) r5
  termination_by structural fuel _ => fuel

/-- `unions = delimitedList(elements, delim=(union_mark |
intersection_mark))` (parser.py lines 2211-2216); the delimiters are
suppressed. -/
def pyElementSetSpec : Nat → List Char → PR (List PyVal)
  | 0, _ => .err .unmodelled
  | Nat.succ fuel, l =>
      prSeq (pyElements fuel l) fun e r1 =>
      pyUnionsTail fuel r1 [e]
  termination_by structural fuel _ => fuel

/-- Delimiter-element tail of `unions`, backtracking over a trailing
delimiter. -/
def pyUnionsTail : Nat → List Char → List PyVal → PR (List PyVal)
  | 0, _, _ => .err .unmodelled
  | Nat.succ fuel, l, acc =>
      match prOr (pLit "|".data l) fun _ =>
            prOr (pKw "UNION".data l) fun _ =>
            prOr (pLit "^".data l) fun _ =>
            pKw "INTERSECTION".data l with
      | .fail => .ok acc l
      | .err e => .err e
      | .ok _ r1 =>
          match pyElements fuel r1 with
          | .ok e r2 => pyUnionsTail fuel r2 (acc ++ [e])
          | .fail => .ok acc l
          | .err e => .err e
  termination_by structural fuel _ _ => fuel

/-- `elements = Group(subtype_elements | object_set_elements |
('(' + element_set_spec + ')'))` (parser.py lines 2213-2215). -/
def pyElements : Nat → List Char → PR PyVal
  | 0, _ => .err .unmodelled
  | Nat.succ fuel, l =>
      match pySubtypeElements fuel l with
      | .ok ts r => .ok (.list ts) r
      | .err e => .err e
      | .fail =>
          match pLit "\x7b".data l with
          | .ok _ _ => .err .unmodelled
          | .err e => .err e
          | .fail =>
          match pyTypeReference l with
          | .ok n r => .ok (.list [.str n]) r
          | .err e => .err e
          | .fail =>
          match pLit "(".data l with
          | .err e => .err e
          | .fail => .fail
          | .ok _ r1 =>
              prSeq (pyElementSetSpec fuel r1) fun ts r2 =>
              prSeq (pLit ")".data r2) fun _ r3 =>
              .ok (.list ([.str "("] ++ ts ++ [.str ")"])) r3
  termination_by structural fuel _ => fuel

/-- `subtype_elements` (parser.py lines 2201-2208) in source alternative
order; `SIZE`, `FROM`, `WITH COMPONENT(S)`, `PATTERN` and `INCLUDES`
lead productions outside the model. -/
def pySubtypeElements : Nat → List Char → PR (List PyVal)
  | 0, _ => .err .unmodelled
  | Nat.succ fuel, l =>
      match pKw "SIZE".data l with
      | .ok _ _ => .err .unmodelled
      | .err e => .err e
      | .fail =>
      match pKw "FROM".data l with
      | .ok _ _ => .err .unmodelled
      | .err e => .err e
      | .fail =>
      match pyValueRange fuel l with
      | .ok ts r => .ok ts r
      | .err e => .err e
      | .fail =>
      match pKw "WITH COMPONENT".data l with
      | .ok _ _ => .err .unmodelled
      | .err e => .err e
      | .fail =>
      match pKw "WITH COMPONENTS".data l with
      | .ok _ _ => .err .unmodelled
      | .err e => .err e
      | .fail =>
      match pyValue fuel l with
      | .ok v r => .ok [v] r
      | .err e => .err e
      | .fail =>
      match pKw "PATTERN".data l with
      | .ok _ _ => .err .unmodelled
      | .err e => .err e
      | .fail =>
      match pKw "INCLUDES".data l with
      | .ok _ _ => .err .unmodelled
      | .err e => .err e
      | .fail =>
      match pyType fuel l with
      | .ok ty r => .ok [ty] r
      | .err e => .err e
      | .fail =>
      match pyType fuel l with
      | .ok ty r => .ok [ty] r
      | .err e => .err e
      | .fail => .fail
  termination_by structural fuel _ => fuel

/-- `value_range` (parser.py lines 2195-2198): the three ordered lower
alternatives (`Combine(integer + dot)`, `integer`, `lower_endpoint`)
then the committed upper endpoint; the action `convert_value_range`
replaces the tokens by the endpoint pair. -/
def pyValueRange : Nat → List Char → PR (List PyVal)
  | 0, _ => .err .unmodelled
  | Nat.succ fuel, l =>
      match pyAdjacentIntDot l with
      | some r1 =>
          (match pLit "..".data r1 with
           | .ok _ _ => .err .unmodelled
           | .err e => .err e
           | .fail => pyValueRangeAlt2 fuel l)
      | none => pyValueRangeAlt2 fuel l
  termination_by structural fuel _ => fuel

/-- Second alternative of `value_range`: `integer + Suppress('..')`. -/
def pyValueRangeAlt2 : Nat → List Char → PR (List PyVal)
  | 0, _ => .err .unmodelled
  | Nat.succ fuel, l =>
      match pyIntegerTok l with
      | .err e => .err e
      | .fail => pyValueRangeAlt3 fuel l
      | .ok v r1 =>
          match pLit "..".data r1 with
          | .ok _ r2 => pyValueRangeUpper fuel [v] r2
          | .err e => .err e
          | .fail => pyValueRangeAlt3 fuel l
  termination_by structural fuel _ => fuel

/-- Third alternative of `value_range`: `lower_endpoint =
(value | MIN) + Optional('<')` then `Suppress('..')`. -/
def pyValueRangeAlt3 : Nat → List Char → PR (List PyVal)
  | 0, _ => .err .unmodelled
  | Nat.succ fuel, l =>
      match prOr (pyValue fuel l) (fun _ =>
            prSeq (pKw "MIN".data l) fun _ r => .ok (.str "MIN") r) with
      | .err e => .err e
      | .fail => .fail
      | .ok v r1 =>
          let p := match pLit "<".data r1 with
            | .ok _ rr => ([v, PyVal.str "<"], rr)
            | _ => ([v], r1)
          match pLit "..".data p.2 with
          | .ok _ r3 => pyValueRangeUpper fuel p.1 r3
          | .err e => .err e
          | .fail => .fail
  termination_by structural fuel _ => fuel

/-- The committed `upper_endpoint = Optional('<') + (value | MAX)` and
the `convert_value_range` action. -/
def pyValueRangeUpper : Nat → List PyVal → List Char → PR (List PyVal)
  | 0, _, _ => .err .unmodelled
  | Nat.succ fuel, mins, l =>
      let p := match pLit "<".data l with
        | .ok _ rr => (mins ++ [PyVal.str "<"], rr)
        | _ => (mins, l)
      match prOr (pyValue fuel p.2) (fun _ =>
            prSeq (pKw "MAX".data p.2) fun _ r => .ok (.str "MAX") r) with
      | .ok v r2 => .ok [convertValueRange (p.1 ++ [v])] r2
      | .fail => .err .synErr
      | .err e => .err e
  termination_by structural fuel _ _ => fuel

end

/-! ### Assignments, module structure, and the public entry point -/

/-- `parameter_list = Suppress(Optional('\x7b' + delimitedList(parameter) +
'\x7d'))` (parser.py lines 1964-1966); parameterized assignments are
outside the model. -/
def pyParamList (l : List Char) : PR Unit :=
  match pLit "\x7b".data l with
  | .ok _ _ => .err .unmodelled
  | .err e => .err e
  | .fail => .ok () l

/-- `tag = Group(Optional(Suppress('[') - ...))` (parser.py lines
1945-1951); tagged inputs are outside the model, an absent tag yields
the empty group. -/
def pyTagGroup (l : List Char) : PR PyVal :=
  match pLit "[".data l with
  | .ok _ _ => .err .unmodelled
  | .err e => .err e
  | .fail => .ok (.list []) l

/-- `assignment` (parser.py lines 2615-2619): the five parameterized
assignment forms in source order, with their conversion actions; the
first three forms are decided by their leading references and braces on
the modelled inputs. -/
def pyAssignment (fuel : Nat) (l : List Char) : PR (String × String × PyVal) :=
  prOr (
    prSeq (pyTypeReference l) fun _ r1 =>
    prSeq (pyParamList r1) fun _ r2 =>
    prSeq (pyObjectClassRef r2) fun _ r3 =>
    prSeq (prCommit (pLit "::=".data r3)) fun _ r4 =>
    (match pLit "\x7b".data r4 with
     | .ok _ _ => (.err .unmodelled : PR (String × String × PyVal))
     | .err e => .err e
     | .fail => .err .synErr)) fun _ =>
  prOr (
    prSeq (pyIdentifierTok l) fun _ r1 =>
    prSeq (pyParamList r1) fun _ r2 =>
    prSeq (pyObjectClassRef r2) fun _ r3 =>
    prSeq (pLit "::=".data r3) fun _ r4 =>
    (match pLit "\x7b".data r4 with
     | .ok _ _ => (.err .unmodelled : PR (String × String × PyVal))
     | .err e => .err e
     | .fail => .fail)) fun _ =>
  prOr (
    prSeq (pyObjectClassRef l) fun _ r1 =>
    prSeq (pyParamList r1) fun _ r2 =>
    prSeq (pLit "::=".data r2) fun _ r3 =>
    (match pKw "CLASS".data r3 with
     | .ok _ _ => (.err .unmodelled : PR (String × String × PyVal))
     | .err e => .err e
     | .fail =>
         prSeq (pyObjectClassRef r3) fun _ r4 =>
         (match pLit "\x7b".data r4 with
          | .ok _ _ => (.err .unmodelled : PR (String × String × PyVal))
          | .err e => .err e
          | .fail => .fail))) fun _ =>
  prOr (
    prSeq (pyTypeReference l) fun name r1 =>
    prSeq (pyParamList r1) fun _ r2 =>
    prSeq (prCommit (pLit "::=".data r2)) fun _ r3 =>
    prSeq (pyTagGroup r3) fun tg r4 =>
    prSeq (prCommit (pyType fuel r4)) fun ty r5 =>
    (match convertPTA name tg ty with
     | .ok a => .ok a r5
     | .error e => .err e)) fun _ =>
  prSeq (pyIdentifierTok l) fun name r1 =>
  prSeq (pyParamList r1) fun _ r2 =>
  prSeq (prCommit (pyType fuel r2)) fun ty r3 =>
  prSeq (prCommit (pLit "::=".data r3)) fun _ r4 =>
  prSeq (prCommit (pyValue fuel r4)) fun v r5 =>
  (match v with
   | .list inner =>
       (match convertPVA name (.list [ty]) inner with
        | .ok a => .ok a r5
        | .error e => .err e)
   | _ => .err .unmodelled)

/-- `assignment_list = ZeroOrMore(assignment)` (parser.py line 2620). -/
def pyAssignmentStar : Nat → List Char → List (String × String × PyVal) →
    PR (List (String × String × PyVal))
  | 0, _, _ => .err .unmodelled
  | Nat.succ fuel, l, acc =>
      match pyAssignment fuel l with
      | .ok a r => pyAssignmentStar fuel r (acc ++ [a])
      | .fail => .ok acc l
      | .err e => .err e

/-- `module_body = exports + imports + assignment_list` with
`convert_module_body = merge_dicts` (parser.py lines 2621, 2661,
1762-1763); with no `IMPORTS` the imports action contributes
`(imports := empty dict)`, and the assignment-list action's four maps
follow.  The `LOGGER.warning` calls of `convert_assignment_list` are a
logging side effect with no influence on the returned value and are
dropped here (they are analysed separately through `asgRun`). -/
def pyModuleBody (fuel : Nat) (l : List Char) : PR PyVal :=
  match pKw "EXPORTS".data l with
  | .ok _ _ => .err .unmodelled
  | .err e => .err e
  | .fail =>
  match pKw "IMPORTS".data l with
  | .ok _ _ => .err .unmodelled
  | .err e => .err e
  | .fail =>
  prSeq (pyAssignmentStar fuel l []) fun asgs r1 =>
  match convertAssignmentList asgs with
  | .error e => .err e
  | .ok (_, d) =>
      match mergeDicts [.dict [("imports", .dict [])], d] with
      | .ok items => .ok (.dict items) r1
      | .error e => .err e

/-- `tag_default = Group(Optional((AUTOMATIC | EXPLICIT | IMPLICIT) +
TAGS))` (parser.py line 2636). -/
def pyTagDefault (l : List Char) : PR PyVal :=
  match prOr (prSeq (pKw "AUTOMATIC".data l) fun _ r =>
              prSeq (pKw "TAGS".data r) fun _ r2 =>
              .ok (PyVal.list [.str "AUTOMATIC", .str "TAGS"]) r2) fun _ =>
        prOr (prSeq (pKw "EXPLICIT".data l) fun _ r =>
              prSeq (pKw "TAGS".data r) fun _ r2 =>
              .ok (PyVal.list [.str "EXPLICIT", .str "TAGS"]) r2) fun _ =>
        prSeq (pKw "IMPLICIT".data l) fun _ r =>
        prSeq (pKw "TAGS".data r) fun _ r2 =>
        .ok (PyVal.list [.str "IMPLICIT", .str "TAGS"]) r2 with
  | .ok v r => .ok v r
  | .err e => .err e
  | .fail => .ok (.list []) l

/-- `extension_default = Group(Optional(EXTENSIBILITY IMPLIED))`
(parser.py line 2637). -/
def pyExtensionDefault (l : List Char) : PR PyVal :=
  match pKw "EXTENSIBILITY IMPLIED".data l with
  | .ok _ r => .ok (.list [.str "EXTENSIBILITY IMPLIED"]) r
  | .err e => .err e
  | .fail => .ok (.list []) l

/-- `definitive_identifier = Group(Optional('\x7b' ... '\x7d'))`
(parser.py lines 2631-2633); module object identifiers are outside the
model. -/
def pyDefinitiveIdentifier (l : List Char) : PR PyVal :=
  match pLit "\x7b".data l with
  | .ok _ _ => .err .unmodelled
  | .err e => .err e
  | .fail => .ok (.list []) l

/-- `module_definition` (parser.py lines 2638-2645) with
`convert_module_definition`: failures after the module identifier are
committed (the grammar's `-`). -/
def pyModuleDefinition (fuel : Nat) (l : List Char) : PR PyVal :=
  prSeq (pyTypeReference l) fun name r1 =>
  prSeq (pyDefinitiveIdentifier r1) fun defid r2 =>
  prSeq (prCommit (pKw "DEFINITIONS".data r2)) fun _ r3 =>
  prSeq (pyTagDefault r3) fun tagd r4 =>
  prSeq (pyExtensionDefault r4) fun extd r5 =>
  prSeq (prCommit (pLit "::=".data r5)) fun _ r6 =>
  prSeq (prCommit (pKw "BEGIN".data r6)) fun _ r7 =>
  prSeq (pyModuleBody fuel r7) fun body r8 =>
  prSeq (prCommit (pKw "END".data r8)) fun _ r9 =>
  match convertModuleDefinition [.str name, defid, tagd, extd] body with
  | .ok v => .ok v r9
  | .error e => .err e

/-- The repetition tail of `OneOrMore(module_definition)`. -/
def pyModuleStar : Nat → List Char → List PyVal → PR (List PyVal)
  | 0, _, _ => .err .unmodelled
  | Nat.succ fuel, l, acc =>
      match pyModuleDefinition fuel l with
      | .ok m r => pyModuleStar fuel r (acc ++ [m])
      | .fail => .ok acc l
      | .err e => .err e

/-- The combinator-grammar phase of `parse_string` (parser.py lines
2731-2743): `specification = OneOrMore(module_definition) + StringEnd()`
(line 2648) with `convert_specification = merge_dicts`; a grammar
mismatch becomes the `ParseError` that `parse_string` raises. -/
def pyParse (s : List Char) : Except PErr PyVal :=
  match pyModuleDefinition 100 s with
  | .fail => .error .synErr
  | .err e => .error e
  | .ok m r =>
      match pyModuleStar 100 r [m] with
      | .fail => .error .synErr
      | .err e => .error e
      | .ok ms r2 =>
          if (pySkipWs r2).isEmpty then
            match mergeDicts ms with
            | .ok items => .ok (.dict items)
            | .error e => .error e
          else .error .synErr

/-- `parse_string` (parser.py lines 2710-2743): first the tokenizer-based
`Asn1Parser` phase — whose `Transformer` result is discarded (the
`Transformer` of parser.py lines 906-1042 writes nothing into its
returned `_modules` and its per-type handlers are print/pass stubs, so
on an accepted parse tree this phase has no effect other than
succeeding) and whose failure raises `ParseError` — then the
comment-blanked source through the combinator grammar, whose converted
first token is returned. -/
def parseString (s : String) : Except PErr PyVal :=
  match asn1TpAccepts s.data with
  | some true => pyParse (ignoreComments s.data)
  | some false => .error .synErr
  | none => .error .unmodelled

/-! ## Concrete inputs and their expected module trees

Dictionary keys appear in CPython insertion order (the order
`parse_string` builds them); Python dict equality is key-set based, so
this order is presentation only. -/

/-- Scenario S1 of the specification. -/
def inputS1 : String := "M DEFINITIONS ::= BEGIN A ::= INTEGER END"

/-- Scenario S3 of the specification. -/
def inputS3 : String :=
  "M DEFINITIONS ::= BEGIN E ::= ENUMERATED \x7ba, b(5), c, ..., d\x7d END"

/-- A module whose ENUMERATED type repeats the number 1. -/
def inputDupEnum : String :=
  "M DEFINITIONS ::= BEGIN E ::= ENUMERATED \x7ba(1), b(1)\x7d END"

/-- Scenario S5 of the specification (the hstring written with its
apostrophes assembled explicitly). -/
def inputS5 : String :=
  String.mk ("M DEFINITIONS ::= BEGIN v INTEGER ::= 17 b BIT STRING ::= ".data ++
    [squote] ++ "DE AD".data ++ [squote] ++ "H END".data)

/-- Scenario S5 with the hstring digits written in lowercase. -/
def inputS5Lower : String :=
  String.mk ("M DEFINITIONS ::= BEGIN v INTEGER ::= 17 b BIT STRING ::= ".data ++
    [squote] ++ "de ad".data ++ [squote] ++ "H END".data)

/-- An integer type with a reversed value range. -/
def inputRange : String := "M DEFINITIONS ::= BEGIN A ::= INTEGER (5..1) END"

/-- Another reversed value range. -/
def inputRange73 : String := "M DEFINITIONS ::= BEGIN A ::= INTEGER (7..3) END"

/-- A module using the reserved word TAGS as a type reference. -/
def inputTags : String := "M DEFINITIONS ::= BEGIN A ::= TAGS END"

/-- A module with two type assignments named T. -/
def inputDupType : String := "M DEFINITIONS ::= BEGIN T ::= INTEGER T ::= REAL END"

/-- An enumeration whose post-marker items leave gaps below them. -/
def inputExtEnum : String :=
  "M DEFINITIONS ::= BEGIN E ::= ENUMERATED \x7ba, ..., e(5), f\x7d END"

/-- A second minimal module, for witnesses. -/
def inputBool : String := "N DEFINITIONS ::= BEGIN B ::= BOOLEAN END"

/-- The module tree of `inputS1`. -/
def expS1 : PyVal :=
  .dict [("M", .dict
    [("imports", .dict []),
     ("types", .dict [("A", .dict [("type", .str "INTEGER")])]),
     ("values", .dict []),
     ("object-classes", .dict []),
     ("object-sets", .dict []),
     ("extensibility-implied", .bool false)])]

/-- The module tree of `inputS3`. -/
def expS3 : PyVal :=
  .dict [("M", .dict
    [("imports", .dict []),
     ("types", .dict [("E", .dict
        [("type", .str "ENUMERATED"),
         ("values", .list
            [.tup [.str "a", .int 0], .tup [.str "b", .int 5],
             .tup [.str "c", .int 1], .pyNone, .tup [.str "d", .int 2]])])]),
     ("values", .dict []),
     ("object-classes", .dict []),
     ("object-sets", .dict []),
     ("extensibility-implied", .bool false)])]

/-- The module tree of `inputS5`. -/
def expS5 : PyVal :=
  .dict [("M", .dict
    [("imports", .dict []),
     ("types", .dict []),
     ("values", .dict
        [("v", .dict [("type", .str "INTEGER"), ("value", .int 17)]),
         ("b", .dict [("type", .str "BIT STRING"), ("value", .str "0xdead")])]),
     ("object-classes", .dict []),
     ("object-sets", .dict []),
     ("extensibility-implied", .bool false)])]

/-- The module tree of `inputRange`. -/
def expRange : PyVal :=
  .dict [("M", .dict
    [("imports", .dict []),
     ("types", .dict [("A", .dict
        [("type", .str "INTEGER"),
         ("restricted-to", .list [.tup [.int 5, .int 1]])])]),
     ("values", .dict []),
     ("object-classes", .dict []),
     ("object-sets", .dict []),
     ("extensibility-implied", .bool false)])]

/-- The module tree of `inputRange73`. -/
def expRange73 : PyVal :=
  .dict [("M", .dict
    [("imports", .dict []),
     ("types", .dict [("A", .dict
        [("type", .str "INTEGER"),
         ("restricted-to", .list [.tup [.int 7, .int 3]])])]),
     ("values", .dict []),
     ("object-classes", .dict []),
     ("object-sets", .dict []),
     ("extensibility-implied", .bool false)])]

/-- The module tree the combinator grammar alone produces for
`inputTags`. -/
def expTags : PyVal :=
  .dict [("M", .dict
    [("imports", .dict []),
     ("types", .dict [("A", .dict [("type", .str "TAGS")])]),
     ("values", .dict []),
     ("object-classes", .dict []),
     ("object-sets", .dict []),
     ("extensibility-implied", .bool false)])]

/-- The module tree of `inputDupType`: the second assignment of T wins. -/
def expDupType : PyVal :=
  .dict [("M", .dict
    [("imports", .dict []),
     ("types", .dict [("T", .dict [("type", .str "REAL")])]),
     ("values", .dict []),
     ("object-classes", .dict []),
     ("object-sets", .dict []),
     ("extensibility-implied", .bool false)])]

/-- The module tree of `inputExtEnum`: the post-marker unnamed item f is
numbered 6 (successor of e's 5), not the smallest unused number 1. -/
def expExtEnum : PyVal :=
  .dict [("M", .dict
    [("imports", .dict []),
     ("types", .dict [("E", .dict
        [("type", .str "ENUMERATED"),
         ("values", .list
            [.tup [.str "a", .int 0], .pyNone,
             .tup [.str "e", .int 5], .tup [.str "f", .int 6]])])]),
     ("values", .dict []),
     ("object-classes", .dict []),
     ("object-sets", .dict []),
     ("extensibility-implied", .bool false)])]

/-- The module tree of `inputBool`. -/
def expBool : PyVal :=
  .dict [("N", .dict
    [("imports", .dict []),
     ("types", .dict [("B", .dict [("type", .str "BOOLEAN")])]),
     ("values", .dict []),
     ("object-classes", .dict []),
     ("object-sets", .dict []),
     ("extensibility-implied", .bool false)])]

/-- C4: `parse_string` on the minimal module `M DEFINITIONS ::= BEGIN
A ::= INTEGER END` returns exactly the module tree with
`extensibility-implied` false, empty imports/values/object maps and the
single type binding `A : INTEGER`. -/
theorem c4_minimal_module : parseString inputS1 = .ok expS1 := rfl

/-- C1 (counterexample): on a module whose ENUMERATED type repeats the
number 1, `parse_string` does not return a module tree at all — the
duplicated number raises `ParseError` and the parse aborts, contradicting
the claim that the issue is reported as a warning and the parse proceeds
to completion. -/
theorem c1_dup_enum_aborts_counterexample :
    parseString inputDupEnum = .error (.dupEnumNumber 1) := rfl

/-- C3 (counterexample): on `A ::= TAGS` the combinator grammar alone
accepts and produces a module tree, but `parse_string` rejects, because
the tokenizer-based grammar — claimed unreachable — runs first and
fails; so `parse_string`'s outcome does not coincide with the single
result-producing grammar. -/
theorem c3_dual_grammar_counterexample :
    asn1TpAccepts inputTags.data = some false ∧
      pyParse (ignoreComments inputTags.data) = .ok expTags ∧
      parseString inputTags = .error .synErr :=
  ⟨rfl, rfl, rfl⟩

/-- C6 (counterexample): `parse_string` accepts `INTEGER (5..1)` and
records the range's endpoints as the pair (5, 1) in `restricted-to`,
although 5 ≤ 1 fails — no `min ≤ max` check exists. -/
theorem c6_value_range_counterexample :
    parseString inputRange = .ok expRange ∧ decide ((5 : Int) ≤ 1) = false :=
  ⟨rfl, by decide⟩

/-- C10: the hstring lexeme admits only uppercase hexadecimal digits:
the lowercase `'de ad'H` is not an hstring token (both grammars reject
the module, and `parse_string` raises `ParseError`), while the uppercase
`'DE AD'H` is accepted and its digits appear lowercased in the output
value `0xdead`. -/
theorem c10_hstring_uppercase_only :
    pyHstringTok ([squote] ++ "de ad".data ++ [squote, 'H']) = .fail ∧
      pyHstringTok ([squote] ++ "DE AD".data ++ [squote, 'H']) =
        .ok (.str "0xdead") [] ∧
      parseString inputS5Lower = .error .synErr ∧
      parseString inputS5 = .ok expS5 :=
  ⟨rfl, rfl, rfl, rfl⟩

/-- C2 (counterexample): on `ENUMERATED \x7ba, ..., e(5), f\x7d` the
unnamed post-marker item f receives 6 — the successor of e's 5 — even
though the smallest non-negative integer not yet used is 1 (0 and 5 are
taken, 1 is free); the claimed smallest-unused rule fails for items
after the extension marker. -/
theorem c2_enum_numbering_counterexample :
    parseString inputExtEnum = .ok expExtEnum ∧
      decide ((1 : Int) ∈ [(0 : Int), 5]) = false ∧
      (0 : Int) ∈ [(0 : Int), 5] ∧
      decide ((6 : Int) = 1) = false :=
  ⟨rfl, by decide, by decide, by decide⟩

/-! ## Reserved-word guard (C5) -/

theorem stripPre_self_append : ∀ (kw rest : List Char),
    stripPre kw (kw ++ rest) = some rest := by
  intro kw
  induction kw with
  | nil => intro rest; rfl
  | cons k ks ih =>
    intro rest
    show stripPre (k :: ks) (k :: (ks ++ rest)) = some rest
    rw [stripPre]
    rw [if_pos rfl]
    exact ih rest

theorem kwThenWsOrEnd_ws (kw rest : List Char) :
    kwThenWsOrEnd kw (kw ++ (' ' :: rest)) = true := by
  unfold kwThenWsOrEnd
  rw [stripPre_self_append kw (' ' :: rest)]
  rfl

theorem reservedWordsAt_end (rest : List Char) :
    reservedWordsAt ("END ".data ++ rest) = true := by
  have h : kwThenWsOrEnd "END".data ("END ".data ++ rest) = true :=
    kwThenWsOrEnd_ws "END".data rest
  simp only [reservedWordsAt, decide_eq_true_eq]
  exact Or.inl h

/-- C5 (counterexample): the guard regex names only END, SEQUENCE and
ENUMERATED, so the other reserved words of the keyword set — SET, TAGS,
CHOICE among the rest — are accepted by the combinator grammar's
type-reference matcher, contradicting the claim that a negative
lookahead against the (full) keyword set prevents every reserved word
from being consumed as a reference. -/
theorem c5_reserved_word_guard_counterexample :
    "SET" ∈ asn1Keywords ∧ "TAGS" ∈ asn1Keywords ∧ "CHOICE" ∈ asn1Keywords ∧
      typeReferenceMatch "SET X".data = some ("SET".data, " X".data) ∧
      typeReferenceMatch "TAGS Y".data = some ("TAGS".data, " Y".data) ∧
      typeReferenceMatch "CHOICE Z".data = some ("CHOICE".data, " Z".data) :=
  ⟨by decide, by decide, by decide, rfl, rfl, rfl⟩

theorem reservedWordsAt_sequence (rest : List Char) :
    reservedWordsAt ("SEQUENCE ".data ++ rest) = true := by
  have h : kwThenWsOrEnd "SEQUENCE".data ("SEQUENCE ".data ++ rest) = true :=
    kwThenWsOrEnd_ws "SEQUENCE".data rest
  simp only [reservedWordsAt, decide_eq_true_eq]
  exact Or.inr (Or.inl h)

theorem reservedWordsAt_enumerated (rest : List Char) :
    reservedWordsAt ("ENUMERATED ".data ++ rest) = true := by
  have h : kwThenWsOrEnd "ENUMERATED".data ("ENUMERATED ".data ++ rest) = true :=
    kwThenWsOrEnd_ws "ENUMERATED".data rest
  simp only [reservedWordsAt, decide_eq_true_eq]
  exact Or.inr (Or.inr h)

/-- C5 (amended): the negative lookahead of the combinator grammar's
type/module-reference matcher guards exactly the three reserved words
END, SEQUENCE and ENUMERATED (followed by whitespace or end of input):
whenever its regex matches, the reference matcher refuses, and it does
match those three words before any continuation. -/
theorem c5_reserved_word_guard :
    (∀ l : List Char, reservedWordsAt l = true → typeReferenceMatch l = none) ∧
      (∀ rest : List Char, typeReferenceMatch ("END ".data ++ rest) = none) ∧
      (∀ rest : List Char, typeReferenceMatch ("SEQUENCE ".data ++ rest) = none) ∧
      (∀ rest : List Char, typeReferenceMatch ("ENUMERATED ".data ++ rest) = none) ∧
      typeReferenceMatch "END".data = none ∧
      typeReferenceMatch "SEQUENCE".data = none ∧
      typeReferenceMatch "ENUMERATED".data = none := by
  have hguard : ∀ l : List Char, reservedWordsAt l = true →
      typeReferenceMatch l = none := by
    intro l h
    unfold typeReferenceMatch
    rw [if_pos h]
  refine ⟨hguard, ?_, ?_, ?_, rfl, rfl, rfl⟩
  · intro rest; exact hguard _ (reservedWordsAt_end rest)
  · intro rest; exact hguard _ (reservedWordsAt_sequence rest)
  · intro rest; exact hguard _ (reservedWordsAt_enumerated rest)

theorem c5_reserved_word_guard_witness :
    reservedWordsAt "SEQUENCE OF A".data = true ∧
      typeReferenceMatch "SEQUENCE OF A".data = none :=
  ⟨by decide, c5_reserved_word_guard.1 "SEQUENCE OF A".data (by decide)⟩

/-- C6 (amended): `convert_value_range` records the two endpoints of a
value range verbatim, with no `min ≤ max` comparison — for all integer
endpoints, including reversed ones, the recorded pair is exactly
(lower-written, upper-written); end-to-end, `INTEGER (7..3)` is accepted
with `restricted-to` = [(7, 3)]. -/
theorem c6_value_range_verbatim :
    (∀ a b : Int, convertValueRange [.int a, .list [.int b]] = .tup [.int a, .int b]) ∧
      (∀ a b : Int, convertValueRange [.list [.int a], .list [.int b]] =
        .tup [.int a, .int b]) ∧
      parseString inputRange73 = .ok expRange73 :=
  ⟨fun _ _ => rfl, fun _ _ => rfl, rfl⟩

/-- C9: comment stripping is a frame effect on the character array — the
output has the same length as the input, newlines keep their offsets,
every character is either unchanged or a space replacing a non-newline
character, and an input without `--` is returned unchanged; concretely,
a `--`-terminated and a newline-terminated comment become spaces. -/
theorem c9_comment_stripping :
    (∀ s : List Char,
      (ignoreComments s).length = s.length ∧
      (∀ n : Nat, n < s.length →
        ((ignoreComments s).getD n 'a' = '\n' ↔ s.getD n 'a' = '\n')) ∧
      (∀ n : Nat,
        (ignoreComments s).getD n ' ' = s.getD n ' ' ∨
          ((ignoreComments s).getD n ' ' = ' ' ∧ s.getD n '\n' ≠ '\n' ∨
            s.length ≤ n)) ∧
      (noDashDash s = true → ignoreComments s = s)) ∧
    ignoreComments "A -- x--B".data = "A       B".data ∧
    ignoreComments "A--x\nB".data = "A   \nB".data := by
  refine ⟨?_, rfl, rfl⟩
  intro s
  exact ⟨ignoreComments_length s,
         fun n h => ignoreComments_newline_iff s n h,
         fun n => ignoreComments_getD s n,
         fun h => ignoreComments_no_comment s h⟩

theorem c9_comment_stripping_witness :
    ((ignoreComments "A -- q\nB".data).getD 6 'a' = '\n' ↔
      "A -- q\nB".data.getD 6 'a' = '\n') ∧
      ignoreComments "AB".data = "AB".data :=
  ⟨(c9_comment_stripping.1 "A -- q\nB".data).2.1 6 (by decide),
   (c9_comment_stripping.1 "AB".data).2.2.2 (by decide)⟩

/-- C3 (amended): both grammar formulations are reachable from
`parse_string` and both are decisive — the tokenizer-based grammar runs
first as an acceptance gate and the combinator grammar produces the
result; whenever `parse_string` returns a module tree, the gate accepted
and the combinator grammar alone produces that same tree. -/
theorem c3_dual_grammar (s : String) (m : PyVal)
    (h : parseString s = .ok m) :
    asn1TpAccepts s.data = some true ∧
      pyParse (ignoreComments s.data) = .ok m := by
  unfold parseString at h
  cases hacc : asn1TpAccepts s.data with
  | none => rw [hacc] at h; exact Except.noConfusion h
  | some b =>
    cases b with
    | false => rw [hacc] at h; exact Except.noConfusion h
    | true => rw [hacc] at h; exact ⟨rfl, h⟩

theorem c3_dual_grammar_witness :
    parseString inputBool = .ok expBool ∧
      (asn1TpAccepts inputBool.data = some true ∧
        pyParse (ignoreComments inputBool.data) = .ok expBool) :=
  ⟨rfl, c3_dual_grammar inputBool expBool rfl⟩

/-! ## Bit-string canonicalization (C7) -/

theorem ws_not_hex (c : Char) (h : isPyWs c = true) : isHexUpper c = false := by
  simp only [isPyWs, decide_eq_true_eq] at h
  rcases h with rfl | rfl | rfl | rfl | rfl | rfl <;> rfl

theorem ws_not_bin (c : Char) (h : isPyWs c = true) : isBinDigit c = false := by
  simp only [isPyWs, decide_eq_true_eq] at h
  rcases h with rfl | rfl | rfl | rfl | rfl | rfl <;> rfl

theorem hstringKeep (body : List Char)
    (h : ∀ c ∈ body, isHexUpper c = true ∨ isPyWs c = true) :
    ((squote :: body ++ [squote, 'H']).filter
        fun c => ¬ (isPyWs c ∨ c = 'H' ∨ c = squote)) = body.filter isHexUpper := by
  have h0 : ((squote :: body ++ [squote, 'H']).filter
      fun c => (¬ (isPyWs c ∨ c = 'H' ∨ c = squote) : Bool)) =
      ((body ++ [squote, 'H']).filter
        fun c => (¬ (isPyWs c ∨ c = 'H' ∨ c = squote) : Bool)) := rfl
  rw [h0, List.filter_append]
  have h1 : (([squote, 'H'] : List Char).filter
      fun c => (¬ (isPyWs c ∨ c = 'H' ∨ c = squote) : Bool)) = [] := rfl
  rw [h1, List.append_nil]
  apply List.filter_congr
  intro c hc
  rcases h c hc with hhex | hws
  · have hw : isPyWs c = false := by
      cases hpw : isPyWs c
      · rfl
      · exact absurd (ws_not_hex c hpw) (by simp [hhex])
    have hH : c ≠ 'H' := by rintro rfl; exact absurd hhex (by decide)
    have hq : c ≠ squote := by rintro rfl; exact absurd hhex (by decide)
    simp [hw, hH, hq, hhex]
  · simp [hws, ws_not_hex c hws]

theorem bstringKeep (body : List Char)
    (h : ∀ c ∈ body, isBinDigit c = true ∨ isPyWs c = true) :
    ((squote :: body ++ [squote, 'B']).filter
        fun c => ¬ (isPyWs c ∨ c = 'B' ∨ c = squote)) = body.filter isBinDigit := by
  have h0 : ((squote :: body ++ [squote, 'B']).filter
      fun c => (¬ (isPyWs c ∨ c = 'B' ∨ c = squote) : Bool)) =
      ((body ++ [squote, 'B']).filter
        fun c => (¬ (isPyWs c ∨ c = 'B' ∨ c = squote) : Bool)) := rfl
  rw [h0, List.filter_append]
  have h1 : (([squote, 'B'] : List Char).filter
      fun c => (¬ (isPyWs c ∨ c = 'B' ∨ c = squote) : Bool)) = [] := rfl
  rw [h1, List.append_nil]
  apply List.filter_congr
  intro c hc
  rcases h c hc with hbin | hws
  · simp only [isBinDigit, decide_eq_true_eq] at hbin
    rcases hbin with rfl | rfl <;> rfl
  · simp [hws, ws_not_bin c hws]

/-- C7: an hstring body of uppercase hex digits and whitespace converts
to `0x` followed by exactly its hex digits lowercased (whitespace
stripped), and a bstring body of binary digits and whitespace converts
to `0b` followed by exactly its binary digits, preserving their number;
in particular `'DE AD'H` becomes `0xdead`. -/
theorem c7_bitstring_canonicalization
    (hbody bbody : List Char)
    (hh : ∀ c ∈ hbody, isHexUpper c = true ∨ isPyWs c = true)
    (hb : ∀ c ∈ bbody, isBinDigit c = true ∨ isPyWs c = true) :
    convertHstring (squote :: hbody ++ [squote, 'H']) =
        '0' :: 'x' :: (hbody.filter isHexUpper).map asciiLower ∧
      convertBstring (squote :: bbody ++ [squote, 'B']) =
        '0' :: 'b' :: bbody.filter isBinDigit ∧
      (convertBstring (squote :: bbody ++ [squote, 'B'])).length =
        2 + (bbody.filter isBinDigit).length ∧
      convertHstring (squote :: "DE AD".data ++ [squote, 'H']) = "0xdead".data := by
  have h2 : convertBstring (squote :: bbody ++ [squote, 'B']) =
      '0' :: 'b' :: bbody.filter isBinDigit := by
    unfold convertBstring
    rw [bstringKeep bbody hb]
  refine ⟨?_, h2, ?_, rfl⟩
  · unfold convertHstring
    rw [hstringKeep hbody hh]
  · rw [h2]
    simp only [List.length_cons]
    omega

theorem c7_bitstring_canonicalization_witness :
    convertHstring (squote :: "DE AD".data ++ [squote, 'H']) =
        '0' :: 'x' :: ("DE AD".data.filter isHexUpper).map asciiLower ∧
      convertBstring (squote :: "01 1".data ++ [squote, 'B']) =
        '0' :: 'b' :: "01 1".data.filter isBinDigit ∧
      (convertBstring (squote :: "01 1".data ++ [squote, 'B'])).length =
        2 + ("01 1".data.filter isBinDigit).length ∧
      convertHstring (squote :: "DE AD".data ++ [squote, 'H']) = "0xdead".data :=
  c7_bitstring_canonicalization "DE AD".data "01 1".data (by decide) (by decide)

/-! ## Duplicated ENUMERATED numbers (C1) -/

/-- Enumeration item lists in grammar shape: every list-shaped item
carries its named number as an integer at index 2 (the grammar delivers
named numbers as `[name, '(', number, ')']`). -/
def wfEnumItems (root : List PyVal) : Bool :=
  root.all fun item =>
    match item with
    | .list l =>
        match l.get? 2 with
        | some (.int _) => true
        | _ => false
    | _ => true

/-- The explicit numbers of the named items, in order. -/
def namedNumbersOf : List PyVal → List Int
  | [] => []
  | item :: rest =>
      match item with
      | .list l =>
          match l.get? 2 with
          | some (.int n) => n :: namedNumbersOf rest
          | _ => namedNumbersOf rest
      | _ => namedNumbersOf rest

theorem addUsedNumbers_run : ∀ (root : List PyVal) (used : List Int),
    wfEnumItems root = true →
    addUsedNumbers root used = .ok (used ++ namedNumbersOf root) ∨
      ∃ n, addUsedNumbers root used = .error (.dupEnumNumber n) := by
  intro root
  induction root with
  | nil => intro used _; left; simp [addUsedNumbers, namedNumbersOf]
  | cons item rest ih =>
    intro used hwf
    simp only [wfEnumItems, List.all_cons, Bool.and_eq_true] at hwf
    obtain ⟨hitem, hrest⟩ := hwf
    have hrest' : wfEnumItems rest = true := hrest
    cases item
    case list l =>
      cases hl2 : l.get? 2 with
      | none => dsimp only at hitem; rw [hl2] at hitem; simp at hitem
      | some v =>
        cases v
        case int n =>
          have hidx0 : pyIdx l 2 = Except.ok (PyVal.int n) := by
            unfold pyIdx
            rw [hl2]
          have hidx : (pyIdx l 2 >>= pyInt) = Except.ok n := by
            rw [hidx0]
            rfl
          have step : addUsedNumbers (PyVal.list l :: rest) used =
              (if n ∈ used then Except.error (PErr.dupEnumNumber n)
               else addUsedNumbers rest (used ++ [n])) := by
            rw [show addUsedNumbers (PyVal.list l :: rest) used =
                ((pyIdx l 2 >>= pyInt) >>= fun m =>
                  if m ∈ used then Except.error (PErr.dupEnumNumber m)
                  else addUsedNumbers rest (used ++ [m])) from rfl, hidx]
            rfl
          have hnn : namedNumbersOf (PyVal.list l :: rest) =
              n :: namedNumbersOf rest := by
            simp only [namedNumbersOf]
            rw [hl2]
          by_cases hmem : n ∈ used
          · right; exact ⟨n, by rw [step, if_pos hmem]⟩
          · rcases ih (used ++ [n]) hrest' with hok | ⟨m, herr⟩
            · left
              rw [step, if_neg hmem, hok, hnn]
              simp
            · right; exact ⟨m, by rw [step, if_neg hmem, herr]⟩
        all_goals (dsimp only at hitem; rw [hl2] at hitem; simp at hitem)
    all_goals (simpa [addUsedNumbers, namedNumbersOf] using ih used hrest')

theorem addUsedNumbers_nodup : ∀ (root : List PyVal) (used u : List Int),
    wfEnumItems root = true → addUsedNumbers root used = .ok u →
    (namedNumbersOf root).Nodup ∧ ∀ n ∈ namedNumbersOf root, n ∉ used := by
  intro root
  induction root with
  | nil => intro used u _ _; exact ⟨List.nodup_nil, by simp [namedNumbersOf]⟩
  | cons item rest ih =>
    intro used u hwf hok
    simp only [wfEnumItems, List.all_cons, Bool.and_eq_true] at hwf
    obtain ⟨hitem, hrest⟩ := hwf
    have hrest' : wfEnumItems rest = true := hrest
    cases item
    case list l =>
      cases hl2 : l.get? 2 with
      | none => dsimp only at hitem; rw [hl2] at hitem; simp at hitem
      | some v =>
        cases v
        case int n =>
          have hidx0 : pyIdx l 2 = Except.ok (PyVal.int n) := by
            unfold pyIdx
            rw [hl2]
          have hidx : (pyIdx l 2 >>= pyInt) = Except.ok n := by
            rw [hidx0]
            rfl
          have step : addUsedNumbers (PyVal.list l :: rest) used =
              (if n ∈ used then Except.error (PErr.dupEnumNumber n)
               else addUsedNumbers rest (used ++ [n])) := by
            rw [show addUsedNumbers (PyVal.list l :: rest) used =
                ((pyIdx l 2 >>= pyInt) >>= fun m =>
                  if m ∈ used then Except.error (PErr.dupEnumNumber m)
                  else addUsedNumbers rest (used ++ [m])) from rfl, hidx]
            rfl
          have hnn : namedNumbersOf (PyVal.list l :: rest) =
              n :: namedNumbersOf rest := by
            simp only [namedNumbersOf]
            rw [hl2]
          rw [step] at hok
          by_cases hmem : n ∈ used
          · rw [if_pos hmem] at hok; exact Except.noConfusion hok
          · rw [if_neg hmem] at hok
            obtain ⟨hnd, hfresh⟩ := ih (used ++ [n]) u hrest' hok
            rw [hnn]
            constructor
            · rw [List.nodup_cons]
              refine ⟨fun hin => ?_, hnd⟩
              have := hfresh n hin
              simp at this
            · intro k hk
              rcases List.mem_cons.mp hk with rfl | hk'
              · exact hmem
              · intro hku
                exact hfresh k hk' (by simp [hku])
        all_goals (dsimp only at hitem; rw [hl2] at hitem; simp at hitem)
    all_goals
      (obtain ⟨hnd, hfresh⟩ := ih used u hrest' hok
       simpa [namedNumbersOf] using And.intro hnd hfresh)

/-- C1 (amended): a duplicated number among the named items of an
ENUMERATED type is not a warning — `convert_enum_values` raises the
duplicated-number `ParseError`, aborting the parse instead of letting it
proceed to completion. -/
theorem c1_dup_enum_raises (root : List PyVal) (ext : Option (List PyVal))
    (hwf : wfEnumItems root = true)
    (hdup : ¬ (namedNumbersOf root).Nodup) :
    ∃ n, convertEnumValues root ext = .error (.dupEnumNumber n) := by
  rcases addUsedNumbers_run root [] hwf with hok | ⟨n, herr⟩
  · exact absurd (addUsedNumbers_nodup root [] _ hwf hok).1 hdup
  · refine ⟨n, ?_⟩
    unfold convertEnumValues
    rw [herr]
    rfl

/-- The named items `x(7)` and `y(7)`. -/
def dupEnumRoot : List PyVal :=
  [.list [.str "x", .str "(", .int 7, .str ")"],
   .list [.str "y", .str "(", .int 7, .str ")"]]

theorem c1_dup_enum_raises_witness :
    wfEnumItems dupEnumRoot = true ∧
      decide (namedNumbersOf dupEnumRoot).Nodup = false ∧
      ∃ n, convertEnumValues dupEnumRoot none = .error (.dupEnumNumber n) :=
  ⟨by decide, by decide,
   c1_dup_enum_raises dupEnumRoot none (by decide) (by decide)⟩

/-! ## ENUMERATED numbering versus the smallest-unused rule (C2) -/

theorem usedFilter_lt (used : List Int) (n : Int) (h : n ∈ used) :
    (used.filter fun k => decide (n + 1 ≤ k)).length <
      (used.filter fun k => decide (n ≤ k)).length := by
  induction used with
  | nil => cases h
  | cons a as ih =>
    have hmono : (as.filter fun k => decide (n + 1 ≤ k)).length ≤
        (as.filter fun k => decide (n ≤ k)).length :=
      List.Sublist.length_le (List.monotone_filter_right as (fun x hx => by
        simp only [decide_eq_true_eq] at hx ⊢
        omega))
    rcases List.mem_cons.mp h with rfl | hmem
    · simp only [List.filter_cons]
      rw [if_neg (by simp only [decide_eq_true_eq]; omega),
        if_pos (by simp only [decide_eq_true_eq]; omega)]
      simp only [List.length_cons]
      omega
    · have ihh := ih hmem
      simp only [List.filter_cons]
      by_cases hd : n + 1 ≤ a
      · rw [if_pos (by simp only [decide_eq_true_eq]; omega),
          if_pos (by simp only [decide_eq_true_eq]; omega)]
        simp only [List.length_cons]
        omega
      · rw [if_neg (by simp only [decide_eq_true_eq]; omega)]
        by_cases hd2 : n ≤ a
        · rw [if_pos (by simp only [decide_eq_true_eq]; omega)]
          simp only [List.length_cons]
          omega
        · rw [if_neg (by simp only [decide_eq_true_eq]; omega)]
          omega

theorem firstFree_spec : ∀ (fuel : Nat) (n : Int) (used : List Int),
    (used.filter fun k => decide (n ≤ k)).length < fuel →
    firstFree fuel n used ∉ used ∧ n ≤ firstFree fuel n used ∧
      ∀ k : Int, n ≤ k → k < firstFree fuel n used → k ∈ used := by
  intro fuel
  induction fuel with
  | zero => intro n used h; exact absurd h (Nat.not_lt_zero _)
  | succ fuel ih =>
    intro n used h
    by_cases hmem : n ∈ used
    · have hred : firstFree (fuel + 1) n used = firstFree fuel (n + 1) used := by
        simp only [firstFree]
        rw [if_pos hmem]
      have hlt := usedFilter_lt used n hmem
      obtain ⟨h1, h2, h3⟩ := ih (n + 1) used (by omega)
      rw [hred]
      refine ⟨h1, by omega, ?_⟩
      intro k hk1 hk2
      rcases eq_or_lt_of_le hk1 with rfl | hk1'
      · exact hmem
      · exact h3 k (by omega) hk2
    · have hred : firstFree (fuel + 1) n used = n := by
        simp only [firstFree]
        rw [if_neg hmem]
      rw [hred]
      refine ⟨hmem, le_refl n, ?_⟩
      intro k hk1 hk2
      exact absurd hk2 (by omega)

theorem firstFree_ok (n : Int) (used : List Int) :
    firstFree (used.length + 1) n used ∉ used ∧
      n ≤ firstFree (used.length + 1) n used ∧
      ∀ k : Int, n ≤ k → k < firstFree (used.length + 1) n used → k ∈ used :=
  firstFree_spec (used.length + 1) n used
    (lt_of_le_of_lt (List.length_filter_le _ _) (Nat.lt_succ_self _))

theorem firstFree_base (number : Int) (used : List Int) (hnum : 0 ≤ number)
    (hinv : ∀ k : Int, 0 ≤ k → k < number → k ∈ used) :
    firstFree (used.length + 1) number used =
      firstFree (used.length + 1) 0 used := by
  obtain ⟨ha1, ha2, ha3⟩ := firstFree_ok number used
  obtain ⟨hb1, hb2, hb3⟩ := firstFree_ok 0 used
  have hacl : ∀ k : Int, 0 ≤ k → k < firstFree (used.length + 1) number used →
      k ∈ used := by
    intro k hk0 hka
    by_cases hkn : k < number
    · exact hinv k hk0 hkn
    · exact ha3 k (by omega) hka
  rcases lt_trichotomy (firstFree (used.length + 1) number used)
      (firstFree (used.length + 1) 0 used) with hab | hab | hab
  · exact absurd (hb3 _ (by omega) hab) ha1
  · exact hab
  · exact absurd (hacl _ hb2 hab) hb1

theorem enumRootLoop_spec : ∀ (root : List PyVal) (number : Int)
    (used : List Int) (values : List PyVal), 0 ≤ number →
    (∀ k : Int, 0 ≤ k → k < number → k ∈ used) →
    Except.map (fun t => (t.1, t.2.2)) (enumRootLoop root number used values) =
      enumSpecRootLoop root used values := by
  intro root
  induction root with
  | nil => intro number used values _ _; rfl
  | cons token rest ih =>
    intro number used values hnum hinv
    cases token
    case list l =>
      have e1 : enumRootLoop (PyVal.list l :: rest) number used values =
          ((pyIdx l 0) >>= fun nm => (pyIdx l 2 >>= pyInt) >>= fun nv =>
            enumRootLoop rest number used
              (values ++ [.tup [nm, .int nv]])) := rfl
      have e2 : enumSpecRootLoop (PyVal.list l :: rest) used values =
          ((pyIdx l 0) >>= fun nm => (pyIdx l 2 >>= pyInt) >>= fun nv =>
            enumSpecRootLoop rest used
              (values ++ [.tup [nm, .int nv]])) := rfl
      rw [e1, e2]
      cases h0 : pyIdx l 0 with
      | error e => rfl
      | ok nm =>
        cases h2 : (pyIdx l 2 >>= pyInt) with
        | error e => rfl
        | ok nv =>
          exact ih number used (values ++ [.tup [nm, .int nv]]) hnum hinv
    all_goals
      (simp only [enumRootLoop, enumSpecRootLoop]
       rw [firstFree_base number used hnum hinv]
       refine ih _ _ _ ?_ ?_
       · have := (firstFree_ok 0 used).2.1
         omega
       · intro k hk0 hk1
         by_cases hkf : k < firstFree (used.length + 1) 0 used
         · exact List.mem_append_left _ ((firstFree_ok 0 used).2.2 k hk0 hkf)
         · have : k = firstFree (used.length + 1) 0 used := by omega
           subst this
           exact List.mem_append_right _ (by simp))

/-- C2 (amended): the smallest-unused rule governs the root enumeration
only — dropping the running counter, the code's root loop started at 0
computes exactly the specification's smallest-unused assignment, and the
fresh number picked by the `while` loop is the least non-negative
integer not in the used list; scenario S3 evaluates to the claimed
values list.  (The counterexample shows the rule fails for unnamed items
after the extension marker, which take successor numbers instead.) -/
theorem c2_enum_numbering :
    (∀ (root : List PyVal) (used : List Int) (values : List PyVal),
      Except.map (fun t => (t.1, t.2.2)) (enumRootLoop root 0 used values) =
        enumSpecRootLoop root used values) ∧
    (∀ used : List Int,
      firstFree (used.length + 1) 0 used ∉ used ∧
        0 ≤ firstFree (used.length + 1) 0 used ∧
        ∀ k : Int, 0 ≤ k → k < firstFree (used.length + 1) 0 used →
          k ∈ used) ∧
    parseString inputS3 = .ok expS3 := by
  refine ⟨?_, ?_, rfl⟩
  · intro root used values
    refine enumRootLoop_spec root 0 used values (le_refl 0) ?_
    intro k hk0 hk1
    exact absurd hk1 (by omega)
  · intro used
    exact firstFree_ok 0 used

theorem c2_enum_numbering_witness :
    (1 : Int) ∈ ([0, 1, 5] : List Int) :=
  (c2_enum_numbering.2.1 [0, 1, 5]).2.2 1 (by decide) (by decide)

/-! ## Duplicate assignments: warn and overwrite (C8) -/

theorem dget_dset_self (d : List (String × PyVal)) (k : String) (v : PyVal) :
    dget (dset d k v) k = some v := by
  induction d with
  | nil => simp [dset, dget]
  | cons p rest ih =>
    obtain ⟨a, b⟩ := p
    by_cases hk : a = k
    · subst hk; simp [dset, dget]
    · simp [dset, dget, hk, ih]

theorem dget_dset_ne (d : List (String × PyVal)) (k k' : String) (v : PyVal)
    (h : k ≠ k') : dget (dset d k v) k' = dget d k' := by
  induction d with
  | nil => simp [dset, dget, h]
  | cons p rest ih =>
    obtain ⟨a, b⟩ := p
    by_cases hk : a = k
    · subst hk; simp [dset, dget, h]
    · by_cases hk2 : a = k'
      · subst hk2; simp [dset, dget, hk]
      · simp [dset, dget, hk, hk2, ih]

theorem dmem_dset_self (d : List (String × PyVal)) (k : String) (v : PyVal) :
    dmem (dset d k v) k = true := by
  simp [dmem, dget_dset_self]

theorem dmem_mono_dset (d : List (String × PyVal)) (k k' : String) (v : PyVal)
    (h : dmem d k' = true) : dmem (dset d k v) k' = true := by
  by_cases hk : k = k'
  · subst hk; exact dmem_dset_self d k v
  · simpa [dmem, dget_dset_ne d k k' v hk] using h

/-- The five assignment kinds the conversion loop recognizes. -/
def knownKind (k : String) : Bool :=
  k = "parameterized-object-set-assignment" ∨
    k = "parameterized-object-assignment" ∨
    k = "parameterized-object-class-assignment" ∨
    k = "parameterized-type-assignment" ∨
    k = "parameterized-value-assignment"

/-- The effect of one type-assignment iteration: warn if the name is
bound, then (re)bind it. -/
def typStep (acc : AsgAcc) (n : String) (v : PyVal) : AsgAcc :=
  { acc with
    warns := acc.warns ++ (if dmem acc.types n then [⟨"Type", n⟩] else []),
    types := dset acc.types n v }

theorem asgStep_type (acc : AsgAcc) (n : String) (v : PyVal) :
    asgStep acc ("parameterized-type-assignment", n, v) =
      .ok (typStep acc n v) := rfl

theorem typStep_warn (acc : AsgAcc) (n : String) (v : PyVal)
    (h : dmem acc.types n = true) :
    (⟨"Type", n⟩ : Warn) ∈ (typStep acc n v).warns := by
  simp [typStep, h]

theorem asgStep_ok (acc : AsgAcc) (a : String × String × PyVal)
    (h : knownKind a.1 = true) : ∃ acc2, asgStep acc a = .ok acc2 := by
  obtain ⟨kind, name, value⟩ := a
  simp only [knownKind, decide_eq_true_eq] at h
  rcases h with h | h | h | h | h <;> subst h <;> exact ⟨_, rfl⟩

theorem asgStep_types (acc acc2 : AsgAcc) (a : String × String × PyVal)
    (h : asgStep acc a = .ok acc2) :
    (a.1 = "parameterized-type-assignment" ∧
        acc2.types = dset acc.types a.2.1 a.2.2) ∨
      acc2.types = acc.types := by
  obtain ⟨kind, name, value⟩ := a
  unfold asgStep at h
  dsimp only at h ⊢
  by_cases h1 : kind = "parameterized-object-set-assignment"
  · rw [if_pos h1] at h
    right; injection h with h''; rw [← h'']
  · rw [if_neg h1] at h
    by_cases h2 : kind = "parameterized-object-assignment"
    · rw [if_pos h2] at h
      right; injection h with h''; rw [← h'']
    · rw [if_neg h2] at h
      by_cases h3 : kind = "parameterized-object-class-assignment"
      · rw [if_pos h3] at h
        right; injection h with h''; rw [← h'']
      · rw [if_neg h3] at h
        by_cases h4 : kind = "parameterized-type-assignment"
        · rw [if_pos h4] at h
          left
          refine ⟨h4, ?_⟩
          injection h with h''
          rw [← h'']
        · rw [if_neg h4] at h
          by_cases h5 : kind = "parameterized-value-assignment"
          · rw [if_pos h5] at h
            right; injection h with h''; rw [← h'']
          · rw [if_neg h5] at h
            exact Except.noConfusion h

theorem asgStep_warns (acc acc2 : AsgAcc) (a : String × String × PyVal)
    (h : asgStep acc a = .ok acc2) :
    ∃ extra, acc2.warns = acc.warns ++ extra := by
  obtain ⟨kind, name, value⟩ := a
  unfold asgStep at h
  dsimp only at h ⊢
  by_cases h1 : kind = "parameterized-object-set-assignment"
  · rw [if_pos h1] at h
    injection h with h''; exact ⟨_, by rw [← h'']⟩
  · rw [if_neg h1] at h
    by_cases h2 : kind = "parameterized-object-assignment"
    · rw [if_pos h2] at h
      injection h with h''; exact ⟨_, by rw [← h'']⟩
    · rw [if_neg h2] at h
      by_cases h3 : kind = "parameterized-object-class-assignment"
      · rw [if_pos h3] at h
        injection h with h''; exact ⟨_, by rw [← h'']⟩
      · rw [if_neg h3] at h
        by_cases h4 : kind = "parameterized-type-assignment"
        · rw [if_pos h4] at h
          injection h with h''; exact ⟨_, by rw [← h'']⟩
        · rw [if_neg h4] at h
          by_cases h5 : kind = "parameterized-value-assignment"
          · rw [if_pos h5] at h
            injection h with h''; exact ⟨_, by rw [← h'']⟩
          · rw [if_neg h5] at h
            exact Except.noConfusion h

theorem exbind_ok {α β : Type} (a : α) (f : α → Except PErr β) :
    (Except.ok a >>= f) = f a := rfl

theorem asgRun_cons (a : String × String × PyVal)
    (l : List (String × String × PyVal)) (acc : AsgAcc) :
    asgRun (a :: l) acc = (asgStep acc a >>= fun b => asgRun l b) := by
  simp [asgRun]

theorem asgRun_append (l1 l2 : List (String × String × PyVal)) (acc : AsgAcc) :
    asgRun (l1 ++ l2) acc = (asgRun l1 acc >>= fun b => asgRun l2 b) := by
  simp [asgRun]

theorem asgRun_cons_ok (a : String × String × PyVal)
    (l : List (String × String × PyVal)) (acc acc1 : AsgAcc)
    (h : asgStep acc a = .ok acc1) :
    asgRun (a :: l) acc = asgRun l acc1 := by
  rw [asgRun_cons, h, exbind_ok]

theorem asgRun_append_ok (l1 l2 : List (String × String × PyVal))
    (acc acc1 : AsgAcc) (h : asgRun l1 acc = .ok acc1) :
    asgRun (l1 ++ l2) acc = asgRun l2 acc1 := by
  rw [asgRun_append, h, exbind_ok]

theorem asgRun_ok : ∀ (l : List (String × String × PyVal)) (acc : AsgAcc),
    (∀ a ∈ l, knownKind a.1 = true) → ∃ acc2, asgRun l acc = .ok acc2 := by
  intro l
  induction l with
  | nil => intro acc _; exact ⟨acc, rfl⟩
  | cons a rest ih =>
    intro acc h
    obtain ⟨acc1, hstep⟩ := asgStep_ok acc a (h a (by simp))
    obtain ⟨acc2, hrun⟩ := ih acc1 (fun x hx => h x (by simp [hx]))
    exact ⟨acc2, by rw [asgRun_cons_ok a rest acc acc1 hstep, hrun]⟩

theorem asgRun_types_pres : ∀ (l : List (String × String × PyVal))
    (acc acc2 : AsgAcc) (n : String), asgRun l acc = .ok acc2 →
    (∀ a ∈ l, ¬ (a.1 = "parameterized-type-assignment" ∧ a.2.1 = n)) →
    dget acc2.types n = dget acc.types n := by
  intro l
  induction l with
  | nil =>
    intro acc acc2 n h _
    have h' : Except.ok (ε := PErr) acc = .ok acc2 := h
    injection h' with h''
    rw [h'']
  | cons a rest ih =>
    intro acc acc2 n h hno
    cases hstep : asgStep acc a with
    | error e =>
      rw [asgRun_cons, hstep] at h
      exact Except.noConfusion h
    | ok acc1 =>
      rw [asgRun_cons_ok a rest acc acc1 hstep] at h
      have htail := ih acc1 acc2 n h (fun x hx => hno x (by simp [hx]))
      rcases asgStep_types acc acc1 a hstep with ⟨hk, hts⟩ | hts
      · have hne : a.2.1 ≠ n := fun he => hno a (by simp) ⟨hk, he⟩
        rw [htail, hts, dget_dset_ne _ _ _ _ hne]
      · rw [htail, hts]

theorem asgRun_warns_mono : ∀ (l : List (String × String × PyVal))
    (acc acc2 : AsgAcc), asgRun l acc = .ok acc2 →
    ∀ w ∈ acc.warns, w ∈ acc2.warns := by
  intro l
  induction l with
  | nil =>
    intro acc acc2 h
    have h' : Except.ok (ε := PErr) acc = .ok acc2 := h
    injection h' with h''
    rw [h'']
    exact fun w hw => hw
  | cons a rest ih =>
    intro acc acc2 h w hw
    cases hstep : asgStep acc a with
    | error e =>
      rw [asgRun_cons, hstep] at h
      exact Except.noConfusion h
    | ok acc1 =>
      rw [asgRun_cons_ok a rest acc acc1 hstep] at h
      obtain ⟨extra, hex⟩ := asgStep_warns acc acc1 a hstep
      exact ih acc1 acc2 h w (by rw [hex]; exact List.mem_append_left _ hw)

theorem asgRun_dmem_mono : ∀ (l : List (String × String × PyVal))
    (acc acc2 : AsgAcc) (n : String), asgRun l acc = .ok acc2 →
    dmem acc.types n = true → dmem acc2.types n = true := by
  intro l
  induction l with
  | nil =>
    intro acc acc2 n h hm
    have h' : Except.ok (ε := PErr) acc = .ok acc2 := h
    injection h' with h''
    rw [← h'']
    exact hm
  | cons a rest ih =>
    intro acc acc2 n h hm
    cases hstep : asgStep acc a with
    | error e =>
      rw [asgRun_cons, hstep] at h
      exact Except.noConfusion h
    | ok acc1 =>
      rw [asgRun_cons_ok a rest acc acc1 hstep] at h
      rcases asgStep_types acc acc1 a hstep with ⟨-, hts⟩ | hts
      · exact ih acc1 acc2 n h (by rw [hts]; exact dmem_mono_dset _ _ _ _ hm)
      · exact ih acc1 acc2 n h (by rw [hts]; exact hm)

/-- C8: when two type assignments share a name, the conversion loop
emits a `Type '<name>' already defined` warning, binds the name to the
last descriptor, and completes normally (given the other assignments are
of recognized kinds and none after the second rebinds the name as a
type); end-to-end, a module binding T twice parses with the second
descriptor winning. -/
theorem c8_duplicate_assignment_last_wins :
    (∀ (pre mid post : List (String × String × PyVal)) (n : String)
        (v1 v2 : PyVal),
      (∀ a ∈ pre ++ mid ++ post, knownKind a.1 = true) →
      (∀ a ∈ post, ¬ (a.1 = "parameterized-type-assignment" ∧ a.2.1 = n)) →
      ∃ acc, asgRun (pre ++ ("parameterized-type-assignment", n, v1) ::
          (mid ++ ("parameterized-type-assignment", n, v2) :: post))
          ⟨[], [], [], [], []⟩ = .ok acc ∧
        dget acc.types n = some v2 ∧
        (⟨"Type", n⟩ : Warn) ∈ acc.warns ∧
        convertAssignmentList (pre ++ ("parameterized-type-assignment", n, v1) ::
          (mid ++ ("parameterized-type-assignment", n, v2) :: post)) =
          .ok (acc.warns,
            .dict [("types", .dict acc.types), ("values", .dict acc.values),
                   ("object-classes", .dict acc.objectClasses),
                   ("object-sets", .dict acc.objectSets)])) ∧
    parseString inputDupType = .ok expDupType := by
  refine ⟨?_, rfl⟩
  intro pre mid post n v1 v2 hknown hpost
  obtain ⟨accP, hP⟩ := asgRun_ok pre ⟨[], [], [], [], []⟩
    (fun x hx => hknown x (by simp [hx]))
  obtain ⟨accM, hM⟩ := asgRun_ok mid (typStep accP n v1)
    (fun x hx => hknown x (by simp [hx]))
  obtain ⟨accE, hE⟩ := asgRun_ok post (typStep accM n v2)
    (fun x hx => hknown x (by simp [hx]))
  have hmem1 : dmem (typStep accP n v1).types n = true := dmem_dset_self _ _ _
  have hmemM : dmem accM.types n = true :=
    asgRun_dmem_mono mid (typStep accP n v1) accM n hM hmem1
  have hfull : asgRun (pre ++ ("parameterized-type-assignment", n, v1) ::
      (mid ++ ("parameterized-type-assignment", n, v2) :: post))
      ⟨[], [], [], [], []⟩ = .ok accE := by
    rw [asgRun_append_ok pre _ _ accP hP,
      asgRun_cons_ok _ _ accP (typStep accP n v1) (asgStep_type accP n v1),
      asgRun_append_ok mid _ _ accM hM,
      asgRun_cons_ok _ _ accM (typStep accM n v2) (asgStep_type accM n v2),
      hE]
  refine ⟨accE, hfull, ?_, ?_, ?_⟩
  · rw [asgRun_types_pres post (typStep accM n v2) accE n hE hpost]
    exact dget_dset_self _ _ _
  · exact asgRun_warns_mono post (typStep accM n v2) accE hE _
      (typStep_warn accM n v2 hmemM)
  · unfold convertAssignmentList
    rw [hfull, exbind_ok]

theorem c8_duplicate_assignment_last_wins_witness :
    ∃ acc, asgRun ([] ++ ("parameterized-type-assignment", "T", PyVal.str "A") ::
        ([] ++ ("parameterized-type-assignment", "T", PyVal.str "B") :: []))
        ⟨[], [], [], [], []⟩ = .ok acc ∧
      dget acc.types "T" = some (PyVal.str "B") ∧
      (⟨"Type", "T"⟩ : Warn) ∈ acc.warns ∧
      convertAssignmentList
          ([] ++ ("parameterized-type-assignment", "T", PyVal.str "A") ::
            ([] ++ ("parameterized-type-assignment", "T", PyVal.str "B") :: [])) =
        .ok (acc.warns,
          .dict [("types", .dict acc.types), ("values", .dict acc.values),
                 ("object-classes", .dict acc.objectClasses),
                 ("object-sets", .dict acc.objectSets)]) :=
  c8_duplicate_assignment_last_wins.1 [] [] [] "T" (.str "A") (.str "B")
    (by simp) (by simp)
